import Mathlib

/-!
Verification development for the local-addon-backups restore/clone
orchestration engine.  The TypeScript sources embedded here are the two
xstate workflow machines (`restoreFromBackup` in one module,
`cloneFromBackup` in the other), the `getFilteredSiteFiles` helper, and
the shared `importDatabase` step.  External collaborators (hub
credential service, restic CLI, filesystem, SQL runner, provisioner)
are modelled as an explicit environment of success/failure outcomes,
and every observable side effect (IPC events, logs, filesystem and
database mutations, promise settlement) is recorded in an ordered
effect trace.
-/

namespace LocalBackups

/-- The SQL sub-operations issued by `importDatabase`, in source order:
`SELECT @@SQL_MODE;`, `SET GLOBAL SQL_MODE='NO_AUTO_VALUE_ON_ZERO';`,
`SET names 'utf8'; DROP DATABASE ...; CREATE DATABASE IF NOT EXISTS ...;`
(one combined query call), `importSQLFile`, and the final
`SET GLOBAL SQL_MODE='<captured>';`. -/
inductive DbOp
  | selectMode
  | setPermissiveMode
  | dropAndCreate
  | importDumpFile
  | restorePreviousMode
  deriving DecidableEq, Repr

/-- Abstract state of the site's database: its contents (as an abstract
list of rows) and the current global SQL mode string. -/
structure DbState where
  rows : List String
  sqlMode : String
  deriving DecidableEq, Repr

/-- Observable side effects, in the order the code issues them.
IPC events (`sendIPCEvent`), log lines, filesystem operations of the
Filesystem Apply step, SQL commands, the duplicate-name error dialog,
and the settlement of the entry point's promise. -/
inductive Eff
  | warnBusy
  | bkStarted
  | bkCompleted
  | logState (s : String)
  | logErrorEff
  | updateSiteStatus (siteId status : String)
  | updateSiteMessage (siteId msg : String)
  | showSiteBanner (siteId bannerId : String)
  | restartSite (siteId : String)
  | goToRouteSiteInfo (siteId : String)
  | deleteSiteEff (siteId : String) (trashFiles : Bool)
  | addSiteEff (siteId name : String)
  | selectSite (siteId : String)
  | removePath (p : String)
  | copyTmpToPath (dest : String)
  | sql (op : DbOp)
  | warnNoSqlFile
  | errorDialog
  | promiseResolved
  deriving DecidableEq, Repr

/-- Kernel-computable test for a leading dot, standing in for the
source's `e.startsWith "."` distinction between glob's default
(dot entries unmatched) and the explicit `.*` pattern. -/
def startsWithDot (s : String) : Bool :=
  match s.data with
  | [] => false
  | c :: _ => c == '.'

/-- Kernel-computable lower-casing, standing in for the JS
`toLowerCase` used for case-insensitive name comparison. -/
def toLowerStr (s : String) : String :=
  ⟨s.data.map Char.toLower⟩

/-- Modelled from the spec: the dump-file-name constant
`backupSQLDumpFile` lives in `../../constants`, which is not under
`src/`; the spec fixes only the path shape `app/sql/<dump file name>`.
No claim depends on the concrete name. -/
def backupSQLDumpFile : String := "local-backup-dump.sql"

/-- Source `src/helpers/ignoreFilesPattern.ts`:
`export const excludePatterns = ['conf'];`. -/
def excludePatterns : List String := ["conf"]

/-- Source `getFilteredSiteFiles`: the union of two globs over the
site directory, modelled over the list of the directory's top-level
entry names.  `glob.sync(sitePath/!(conf))` matches every entry except
`conf`, and — by glob's default `dot:false` — no entry starting with a
dot; `glob.sync(sitePath/.*)` then adds every dot entry. -/
def getFilteredSiteFiles (entries : List String) : List String :=
  (entries.filter (fun e => !startsWithDot e && !(excludePatterns.contains e)))
    ++ entries.filter (fun e => startsWithDot e)

/-- Definition following the spec's words, for comparison with
`getFilteredSiteFiles`: the full site tree filtered by exclusion rules,
where the configuration subtree and dotfiles are excluded from deletion
unless explicitly listed. -/
def specFilteredSiteFiles (entries explicitlyListed : List String) : List String :=
  entries.filter
    (fun e => (!startsWithDot e && !(excludePatterns.contains e)) || explicitlyListed.contains e)

/-- Modelled from the spec: `checkForDuplicateSiteName`
(`src/helpers/checkForDuplicateSiteName`, not under `src/`): whether
the requested new site name collides, case-insensitively and in its
normalized (formatted) form, with any existing site's name. -/
def checkForDuplicateSiteName (newSiteName formattedSiteName : String)
    (existingNames : List String) : Bool :=
  existingNames.any (fun n =>
    toLowerStr n == toLowerStr newSiteName || toLowerStr n == toLowerStr formattedSiteName)

/-- Result of one run of the `importDatabase` step: the database state
afterwards, the SQL operations attempted (in order, the failing attempt
included), the failing operation if any, and whether the
missing-dump-file warning was logged. -/
structure DbResult where
  db : DbState
  ops : List DbOp
  error : Option DbOp
  warnedNoFile : Bool
  deriving DecidableEq, Repr

/-- Source `importDatabase` (textually identical in the restore and the
clone module, differing only in which context field supplies the site):
if `fs.existsSync` finds no dump at `tmpDir/app/sql/<backupSQLDumpFile>`
it warns and returns; otherwise it captures the current SQL mode, sets
the permissive mode, drops and recreates the database in one query
call, imports the dump, and restores the captured mode.  `dbFails`
gives the outcome of each awaited SQL call; a failing call leaves the
database state unchanged and aborts the step there. -/
def importDatabase (dumpPresent : Bool) (dumpRows : List String)
    (dbFails : DbOp → Bool) (st : DbState) : DbResult :=
  if !dumpPresent then
    { db := st, ops := [], error := none, warnedNoFile := true }
  else if dbFails .selectMode then
    { db := st, ops := [.selectMode], error := some .selectMode, warnedNoFile := false }
  else
    let existingSqlMode := st.sqlMode
    if dbFails .setPermissiveMode then
      { db := st, ops := [.selectMode, .setPermissiveMode],
        error := some .setPermissiveMode, warnedNoFile := false }
    else
      let st1 : DbState := { st with sqlMode := "NO_AUTO_VALUE_ON_ZERO" }
      if dbFails .dropAndCreate then
        { db := st1, ops := [.selectMode, .setPermissiveMode, .dropAndCreate],
          error := some .dropAndCreate, warnedNoFile := false }
      else
        let st2 : DbState := { st1 with rows := [] }
        if dbFails .importDumpFile then
          { db := st2,
            ops := [.selectMode, .setPermissiveMode, .dropAndCreate, .importDumpFile],
            error := some .importDumpFile, warnedNoFile := false }
        else
          let st3 : DbState := { st2 with rows := dumpRows }
          if dbFails .restorePreviousMode then
            { db := st3,
              ops := [.selectMode, .setPermissiveMode, .dropAndCreate,
                .importDumpFile, .restorePreviousMode],
              error := some .restorePreviousMode, warnedNoFile := false }
          else
            { db := { st3 with sqlMode := existingSqlMode },
              ops := [.selectMode, .setPermissiveMode, .dropAndCreate,
                .importDumpFile, .restorePreviousMode],
              error := none, warnedNoFile := false }

/-- A value read off an xstate interpreter `State` object by a JS
property access. -/
inductive PropVal (C : Type)
  | strV (s : String)
  | ctxV (c : C)
  | boolV (b : Bool)
  deriving DecidableEq

/-- The own properties of an xstate (v4) `State` object, as read by a
JS destructuring access: `value` (the state-node name), `context`, and
`done`.  Any other key — in particular `error`, which both `onStop`
handlers destructure — reads as `undefined` (`none`): the captured
error lives at `state.context.error`, not on the `State` object. -/
def stateOwnProp {C : Type} (value : String) (context : C) (done : Bool) :
    String → Option (PropVal C)
  | "value" => some (.strV value)
  | "context" => some (.ctxV context)
  | "done" => some (.boolV done)
  | _ => none

/-- Mutable world threaded through a run: the process-wide
`serviceState.inProgressStateMachine` slot, the site registry (existing
site names), the top-level entries of the restore-target site
directory, the site database, the staging (tmp) directory's existence
and populated flags, and the ordered effect trace. -/
structure World where
  slot : Option Nat
  sites : List String
  siteEntries : List String
  db : DbState
  tmpDirExists : Bool
  tmpPopulated : Bool
  effects : List Eff
  deriving DecidableEq, Repr

/-- Outcomes of the external collaborators, fixed per run: the hub
credential lookup, `tmp.dirSync`, the restic restore, the Filesystem
Apply step's fs calls, the provisioner, the whole
`waitForDB`/`changeSiteDomainToHost`/`restart` sequence, whether the
snapshot contains the conventional SQL dump, the dump's contents, the
per-operation outcomes of the SQL runner, the external
`formatSiteNicename` normalizer, and the id `shortid.generate` will
produce. -/
structure Env where
  hubOk : Bool
  tmpOk : Bool
  resticOk : Bool
  fsOk : Bool
  provisionOk : Bool
  searchReplaceOk : Bool
  dumpInSnapshot : Bool
  dumpRows : List String
  dbFails : DbOp → Bool
  formatSiteNicename : String → String
  freshSiteId : String

/-- Argument record for a site passed to an entry point: its id, name,
filesystem path, and current runtime status (as returned by
`siteProcessManager.getSiteStatus`). -/
structure SiteArg where
  id : String
  name : String
  path : String
  status : String
  deriving DecidableEq, Repr

namespace Restore

/-- The states of the restore machine, exactly the keys of
`BackupMachineSchema.states` in the restore module. -/
inductive St
  | gettingBackupCredentials
  | creatingTmpDir
  | restoringBackup
  | movingSiteFromTmpDir
  | restoringDatabase
  | finished
  | failed
  deriving DecidableEq, Repr

/-- State-node name, as `state.value` reports it. -/
def St.label : St → String
  | .gettingBackupCredentials => "gettingBackupCredentials"
  | .creatingTmpDir => "creatingTmpDir"
  | .restoringBackup => "restoringBackup"
  | .movingSiteFromTmpDir => "movingSiteFromTmpDir"
  | .restoringDatabase => "restoringDatabase"
  | .finished => "finished"
  | .failed => "failed"

/-- The `onDone.target` entry of each state's `invoke`; `none` for the
two final states, which invoke nothing. -/
def onDoneTarget : St → Option St
  | .gettingBackupCredentials => some .creatingTmpDir
  | .creatingTmpDir => some .restoringBackup
  | .restoringBackup => some .movingSiteFromTmpDir
  | .movingSiteFromTmpDir => some .restoringDatabase
  | .restoringDatabase => some .finished
  | .finished => none
  | .failed => none

/-- The `onError.target` of each state's `invoke`: every invoking state
uses `onErrorFactory()`, whose target is `failed`. -/
def onErrorTarget : St → Option St
  | .finished => none
  | .failed => none
  | _ => some .failed

/-- The machine context (`BackupMachineContext`), with the resolved
credentials and the assigned tmp dir abstracted to presence flags. -/
structure Ctx where
  site : SiteArg
  initialSiteStatus : String
  hasCredentials : Bool
  tmpDirAssigned : Bool
  error : Option String
  deriving DecidableEq, Repr

/-- The invoked service of each state, with the `onDone` `assign`
actions folded into the returned context (the service's resolved data
is merged into the context on the success transition).  Returns the
thrown error (if any), the context, and the world. -/
def runSvc (env : Env) (s : St) (c : Ctx) (w : World) : Option String × Ctx × World :=
  match s with
  | .gettingBackupCredentials =>
      -- getCredentials: getSiteDataFromDisk + getBackupSite (hub call)
      if env.hubOk then (none, { c with hasCredentials := true }, w)
      else (some "CredentialLookupError", c, w)
  | .creatingTmpDir =>
      -- createTmpDir: tmp.dirSync(), tmpDirData assigned onDone
      if env.tmpOk then
        (none, { c with tmpDirAssigned := true }, { w with tmpDirExists := true })
      else (some "WorkspaceCreationError", c, w)
  | .restoringBackup =>
      -- restoreBackup: restic restore of the snapshot into the tmp dir
      if env.resticOk then (none, c, { w with tmpPopulated := true })
      else (some "TransferError", c, w)
  | .movingSiteFromTmpDir =>
      -- moveSiteFromTmpDir: delete getFilteredSiteFiles(site) via
      -- Promise.all, then fs.copySync(tmpDir, sitePath).  A failing run
      -- of the step is abstracted to a failure before its effects.
      if env.fsOk then
        let items := getFilteredSiteFiles w.siteEntries
        (none, c,
          { w with effects := w.effects ++ items.map Eff.removePath
              ++ [Eff.copyTmpToPath c.site.path] })
      else (some "FilesystemError", c, w)
  | .restoringDatabase =>
      -- importDatabase, with fs.existsSync(tmpDir/app/sql/<dump>)
      -- modelled by the snapshot having contained the dump
      let dumpPresent := w.tmpPopulated && env.dumpInSnapshot
      let r := importDatabase dumpPresent env.dumpRows env.dbFails w.db
      let w1 := { w with
        db := r.db
        effects := w.effects
          ++ (if r.warnedNoFile then [Eff.warnNoSqlFile] else r.ops.map Eff.sql) }
      match r.error with
      | none => (none, c, w1)
      | some _ => (some "DatabaseImportError", c, w1)
  | .finished => (none, c, w)
  | .failed => (none, c, w)

/-- The actions of `onErrorFactory()`, in order: `setErrorOnContext`
(record `event.data` as the context's `error`), `logError`, and
`setErroredStatus` (IPC `updateSiteStatus` back to the captured
`initialSiteStatus`, the error banner bound to the site, and
`siteProcessManager.restart(site)`). -/
def failureActions (c : Ctx) (w : World) (msg : String) : Ctx × World :=
  ({ c with error := some msg },
   { w with effects := w.effects ++
      [Eff.logErrorEff,
       Eff.updateSiteStatus c.site.id c.initialSiteStatus,
       Eff.showSiteBanner c.site.id "site-errored-backup",
       Eff.restartSite c.site.id] })

/-- Entering a state: the `finished` state's entry action is
`removeTmpDir` (`fs.emptyDirSync` + `removeCallback`); then the
`onTransition` listener fires, sending `IPCEVENTS.BACKUP_STARTED` and
logging the state name. -/
def enterState (t : St) (w : World) : World :=
  let w1 := if t = St.finished then
    { w with tmpDirExists := false, tmpPopulated := false } else w
  { w1 with effects := w1.effects ++ [Eff.bkStarted, Eff.logState t.label] }

/-- The interpreter loop on this machine: in each non-final state,
await the invoked service; on success take the `onDone` transition, on
error run the failure actions and take the `onError` transition to
`failed`.  The fuel argument strictly exceeds the chain length, so it
is never exhausted.  Returns the final state, context, world, and the
list of states entered after the given one, in order. -/
def stepRun (env : Env) : Nat → St → Ctx → World → St × Ctx × World × List St
  | 0, s, c, w => (s, c, w, [])
  | Nat.succ n, s, c, w =>
    match onDoneTarget s with
    | none => (s, c, w, [])
    | some t =>
      match runSvc env s c w with
      | (none, c1, w1) =>
          let w2 := enterState t w1
          let r := stepRun env n t c1 w2
          (r.1, r.2.1, r.2.2.1, t :: r.2.2.2)
      | (some msg, c1, w1) =>
          let p := failureActions c1 w1 msg
          let w2 := enterState St.failed p.2
          let r := stepRun env n St.failed p.1 w2
          (r.1, r.2.1, r.2.2.1, St.failed :: r.2.2.2)

/-- Everything observable about one call to the entry point: whether a
machine was constructed and started, the in-progress slot right after
the entry assignment and right after the machine reached its final
state (before the `onStop` handler), the final state/context, the
states visited in order, the promise's settlement (outer `none` means
never settled; `some none` is `resolve(null)`; `some (some v)` is
`resolve` of an object carrying `v`), and the final world. -/
structure RunOutcome where
  started : Bool
  slotAfterSet : Option Nat
  slotAfterMachineDone : Option Nat
  finalState : Option St
  finalCtx : Option Ctx
  visited : List St
  resolved : Option (Option (PropVal Ctx))
  world : World

/-- Source `restoreFromBackup`: the single-flight guard (warn and
return if `serviceState.inProgressStateMachine` is set), the capture of
`initialSiteStatus` via `getSiteStatus`, `withContext` + `interpret`,
the slot assignment before `start()`, the `onTransition` listener
(which also fires for the initial state on `start()`), and the `onStop`
handler: clear the slot, destructure `error` from the service's
`_state` (a `State` object — see `stateOwnProp`), send
`BACKUP_COMPLETED`, and resolve. -/
def restoreFromBackup (env : Env) (w : World) (machineId : Nat) (site : SiteArg) :
    RunOutcome :=
  if w.slot.isSome then
    { started := false, slotAfterSet := w.slot, slotAfterMachineDone := w.slot,
      finalState := none, finalCtx := none, visited := [], resolved := none,
      world := { w with effects := w.effects ++ [Eff.warnBusy] } }
  else
    let initialSiteStatus := site.status
    let c0 : Ctx := { site := site, initialSiteStatus := initialSiteStatus,
                      hasCredentials := false, tmpDirAssigned := false, error := none }
    let w1 := { w with slot := some machineId }
    let w2 := { w1 with effects := w1.effects
      ++ [Eff.bkStarted, Eff.logState St.gettingBackupCredentials.label] }
    let r := stepRun env 10 St.gettingBackupCredentials c0 w2
    let sF := r.1
    let cF := r.2.1
    let w3 := r.2.2.1
    let w4 := { w3 with slot := none }
    let errorProp := stateOwnProp sF.label cF true "error"
    let w5 := { w4 with effects := w4.effects ++ [Eff.bkCompleted] }
    let resolvedVal : Option (PropVal Ctx) :=
      match errorProp with
      | some v => some v
      | none => none
    let w6 := { w5 with effects := w5.effects ++ [Eff.promiseResolved] }
    { started := true, slotAfterSet := w1.slot, slotAfterMachineDone := w3.slot,
      finalState := some sF, finalCtx := some cF,
      visited := St.gettingBackupCredentials :: r.2.2.2,
      resolved := some resolvedVal, world := w6 }

/-- The trace suffix every failing restore run ends with: the three
`onErrorFactory` recovery effects after `logError`, the transition
listener firing for `failed`, and the `onStop` effects. -/
def failTail (siteId status : String) : List Eff :=
  [Eff.logErrorEff,
   Eff.updateSiteStatus siteId status,
   Eff.showSiteBanner siteId "site-errored-backup",
   Eff.restartSite siteId,
   Eff.bkStarted, Eff.logState "failed",
   Eff.bkCompleted, Eff.promiseResolved]

end Restore

namespace Clone

/-- The error message thrown by `setupDestinationSite` on a duplicate
site name: `const siteDomainTakenError = ...`. -/
def siteDomainTakenError : String := "Site name is already taken by another site!"

/-- The states of the clone machine, exactly the keys of
`BackupMachineSchema.states` in the clone module. -/
inductive St
  | gettingBackupCredentials
  | setupDestinationSite
  | creatingTmpDir
  | cloningBackup
  | movingSiteFromTmpDir
  | provisioningSite
  | restoringDatabase
  | searchReplaceDomain
  | finished
  | failed
  deriving DecidableEq, Repr

/-- State-node name, as `state.value` reports it. -/
def St.label : St → String
  | .gettingBackupCredentials => "gettingBackupCredentials"
  | .setupDestinationSite => "setupDestinationSite"
  | .creatingTmpDir => "creatingTmpDir"
  | .cloningBackup => "cloningBackup"
  | .movingSiteFromTmpDir => "movingSiteFromTmpDir"
  | .provisioningSite => "provisioningSite"
  | .restoringDatabase => "restoringDatabase"
  | .searchReplaceDomain => "searchReplaceDomain"
  | .finished => "finished"
  | .failed => "failed"

/-- The `onDone.target` entry of each state's `invoke`; `none` for the
two final states. -/
def onDoneTarget : St → Option St
  | .gettingBackupCredentials => some .setupDestinationSite
  | .setupDestinationSite => some .creatingTmpDir
  | .creatingTmpDir => some .cloningBackup
  | .cloningBackup => some .movingSiteFromTmpDir
  | .movingSiteFromTmpDir => some .provisioningSite
  | .provisioningSite => some .restoringDatabase
  | .restoringDatabase => some .searchReplaceDomain
  | .searchReplaceDomain => some .finished
  | .finished => none
  | .failed => none

/-- The `onError.target` of each invoking state: `failed` throughout
(`onBaseSiteErrorFactory()` for the first two states,
`onErrorFactory()` for the rest — both target `failed`). -/
def onErrorTarget : St → Option St
  | .finished => none
  | .failed => none
  | _ => some .failed

/-- Whether the state's `onError` uses `onBaseSiteErrorFactory()`
(whose recovery action is `setErroredBaseSite`, which does not delete
the destination site) rather than `onErrorFactory()` (whose recovery
action `setErroredStatus` dispatches `deleteSite`). -/
def usesBaseSiteErrorHandler : St → Bool
  | .gettingBackupCredentials => true
  | .setupDestinationSite => true
  | _ => false

/-- The machine context (`BackupMachineContext` of the clone module). -/
structure Ctx where
  baseSite : SiteArg
  newSiteName : String
  destinationSite : Option SiteArg
  hasCredentials : Bool
  tmpDirAssigned : Bool
  error : Option String
  deriving DecidableEq, Repr

/-- The invoked service of each state, with the `onDone` `assign`
actions folded into the returned context.  Returns the thrown error
(if any), the context, and the world. -/
def runSvc (env : Env) (s : St) (c : Ctx) (w : World) : Option String × Ctx × World :=
  match s with
  | .gettingBackupCredentials =>
      -- getCredentials on the base site
      if env.hubOk then (none, { c with hasCredentials := true }, w)
      else (some "CredentialLookupError", c, w)
  | .setupDestinationSite =>
      -- setupDestinationSite: normalize the requested name, check for a
      -- duplicate (error dialog + throw on collision), then generate an
      -- id, register the new site record, and notify the UI
      let formattedSiteName := env.formatSiteNicename c.newSiteName
      if checkForDuplicateSiteName c.newSiteName formattedSiteName w.sites then
        (some siteDomainTakenError, c,
          { w with effects := w.effects ++ [Eff.errorDialog] })
      else
        let dupId := env.freshSiteId
        -- dupSite.path = path.join(dirname(baseSite.path), formattedSiteName);
        -- the path calculus is abstracted to the formatted name
        let dest : SiteArg :=
          { id := dupId, name := c.newSiteName, path := formattedSiteName,
            status := "provisioning" }
        (none, { c with destinationSite := some dest },
          { w with
            sites := w.sites ++ [c.newSiteName]
            effects := w.effects ++
              [Eff.addSiteEff dupId c.newSiteName,
               Eff.selectSite dupId,
               Eff.updateSiteStatus dupId "provisioning",
               Eff.updateSiteMessage dupId "Restoring your site backup"] })
  | .creatingTmpDir =>
      if env.tmpOk then
        (none, { c with tmpDirAssigned := true }, { w with tmpDirExists := true })
      else (some "WorkspaceCreationError", c, w)
  | .cloningBackup =>
      -- cloneBackup: restic restore of the base site's snapshot
      if env.resticOk then (none, c, { w with tmpPopulated := true })
      else (some "TransferError", c, w)
  | .movingSiteFromTmpDir =>
      -- moveSiteFromTmpDir (clone): fs.copySync only, no deletion phase
      match c.destinationSite with
      | some dest =>
          if env.fsOk then
            (none, c, { w with effects := w.effects ++ [Eff.copyTmpToPath dest.path] })
          else (some "FilesystemError", c, w)
      | none => (some "FilesystemError", c, w)
  | .provisioningSite =>
      if env.provisionOk then (none, c, w)
      else (some "ProvisioningError", c, w)
  | .restoringDatabase =>
      let dumpPresent := w.tmpPopulated && env.dumpInSnapshot
      let r := importDatabase dumpPresent env.dumpRows env.dbFails w.db
      let w1 := { w with
        db := r.db
        effects := w.effects
          ++ (if r.warnedNoFile then [Eff.warnNoSqlFile] else r.ops.map Eff.sql) }
      match r.error with
      | none => (none, c, w1)
      | some _ => (some "DatabaseImportError", c, w1)
  | .searchReplaceDomain =>
      -- searchReplace: status + message IPC first (synchronous sends),
      -- then waitForDB, changeSiteDomainToHost, and restart are awaited
      match c.destinationSite with
      | some dest =>
          let w1 := { w with effects := w.effects ++
            [Eff.updateSiteStatus dest.id "provisioning",
             Eff.updateSiteMessage dest.id "Changing site domain"] }
          if env.searchReplaceOk then
            (none, c, { w1 with effects := w1.effects ++ [Eff.restartSite dest.id] })
          else (some "DomainRewriteError", c, w1)
      | none => (some "DomainRewriteError", c, w)
  | .finished => (none, c, w)
  | .failed => (none, c, w)

/-- The failure-transition actions.  Both factories start with
`setErrorOnContext` and `logError`; `onBaseSiteErrorFactory` then runs
`setErroredBaseSite` (route back to the base site + error banner),
while `onErrorFactory` runs `setErroredStatus` (IPC `deleteSite` with
`trashFiles: true` for the destination site, route back to the base
site, and the error banner). -/
def failureActions (s : St) (c : Ctx) (w : World) (msg : String) : Ctx × World :=
  let c1 := { c with error := some msg }
  if usesBaseSiteErrorHandler s then
    (c1, { w with effects := w.effects ++
      [Eff.logErrorEff,
       Eff.goToRouteSiteInfo c.baseSite.id,
       Eff.showSiteBanner c.baseSite.id "site-errored-backup-cloning"] })
  else
    (c1, { w with effects := w.effects ++
      [Eff.logErrorEff,
       Eff.deleteSiteEff ((c.destinationSite.map SiteArg.id).getD "undefined") true,
       Eff.goToRouteSiteInfo c.baseSite.id,
       Eff.showSiteBanner c.baseSite.id "site-errored-backup-cloning"] })

/-- Entering a state: `finished`'s entry action is `removeTmpDir`;
then the `onTransition` listener sends `BACKUP_STARTED` and logs the
state name. -/
def enterState (t : St) (w : World) : World :=
  let w1 := if t = St.finished then
    { w with tmpDirExists := false, tmpPopulated := false } else w
  { w1 with effects := w1.effects ++ [Eff.bkStarted, Eff.logState t.label] }

/-- The interpreter loop on the clone machine (same shape as the
restore loop). -/
def stepRun (env : Env) : Nat → St → Ctx → World → St × Ctx × World × List St
  | 0, s, c, w => (s, c, w, [])
  | Nat.succ n, s, c, w =>
    match onDoneTarget s with
    | none => (s, c, w, [])
    | some t =>
      match runSvc env s c w with
      | (none, c1, w1) =>
          let w2 := enterState t w1
          let r := stepRun env n t c1 w2
          (r.1, r.2.1, r.2.2.1, t :: r.2.2.2)
      | (some msg, c1, w1) =>
          let p := failureActions s c1 w1 msg
          let w2 := enterState St.failed p.2
          let r := stepRun env n St.failed p.1 w2
          (r.1, r.2.1, r.2.2.1, St.failed :: r.2.2.2)

/-- Observable record of one `cloneFromBackup` call (same reading as
the restore `RunOutcome`). -/
structure RunOutcome where
  started : Bool
  slotAfterSet : Option Nat
  slotAfterMachineDone : Option Nat
  finalState : Option St
  finalCtx : Option Ctx
  visited : List St
  resolved : Option (Option (PropVal Ctx))
  world : World

/-- Source `cloneFromBackup`: the single-flight guard, `withContext` +
`interpret`, slot assignment before `start()`, the `onTransition`
listener, and the `onStop` handler (clear the slot, destructure
`error` from the service's `_state`, send `BACKUP_COMPLETED`,
resolve). -/
def cloneFromBackup (env : Env) (w : World) (machineId : Nat)
    (baseSite : SiteArg) (newSiteName : String) : RunOutcome :=
  if w.slot.isSome then
    { started := false, slotAfterSet := w.slot, slotAfterMachineDone := w.slot,
      finalState := none, finalCtx := none, visited := [], resolved := none,
      world := { w with effects := w.effects ++ [Eff.warnBusy] } }
  else
    let c0 : Ctx := { baseSite := baseSite, newSiteName := newSiteName,
                      destinationSite := none, hasCredentials := false,
                      tmpDirAssigned := false, error := none }
    let w1 := { w with slot := some machineId }
    let w2 := { w1 with effects := w1.effects
      ++ [Eff.bkStarted, Eff.logState St.gettingBackupCredentials.label] }
    let r := stepRun env 12 St.gettingBackupCredentials c0 w2
    let sF := r.1
    let cF := r.2.1
    let w3 := r.2.2.1
    let w4 := { w3 with slot := none }
    let errorProp := stateOwnProp sF.label cF true "error"
    let w5 := { w4 with effects := w4.effects ++ [Eff.bkCompleted] }
    let resolvedVal : Option (PropVal Ctx) :=
      match errorProp with
      | some v => some v
      | none => none
    let w6 := { w5 with effects := w5.effects ++ [Eff.promiseResolved] }
    { started := true, slotAfterSet := w1.slot, slotAfterMachineDone := w3.slot,
      finalState := some sF, finalCtx := some cF,
      visited := St.gettingBackupCredentials :: r.2.2.2,
      resolved := some resolvedVal, world := w6 }

/-- The trace suffix of a clone run failing through
`onBaseSiteErrorFactory` (credential or destination-setup failure): no
`deleteSite` is dispatched. -/
def baseFailTail (baseId : String) : List Eff :=
  [Eff.logErrorEff,
   Eff.goToRouteSiteInfo baseId,
   Eff.showSiteBanner baseId "site-errored-backup-cloning",
   Eff.bkStarted, Eff.logState "failed",
   Eff.bkCompleted, Eff.promiseResolved]

/-- The trace suffix of a clone run failing through `onErrorFactory`
(any state from `creatingTmpDir` on): `deleteSite` with
`trashFiles: true` for the destination site, then the redirect and the
banner. -/
def deleteFailTail (destId baseId : String) : List Eff :=
  [Eff.logErrorEff,
   Eff.deleteSiteEff destId true,
   Eff.goToRouteSiteInfo baseId,
   Eff.showSiteBanner baseId "site-errored-backup-cloning",
   Eff.bkStarted, Eff.logState "failed",
   Eff.bkCompleted, Eff.promiseResolved]

/-- The destination-site record built by a successful
`setupDestinationSite` for the requested name. -/
def destSiteOf (env : Env) (newSiteName : String) : SiteArg :=
  { id := env.freshSiteId, name := newSiteName,
    path := env.formatSiteNicename newSiteName, status := "provisioning" }

/-- The effects a successful `setupDestinationSite` issues. -/
def setupEffects (env : Env) (newSiteName : String) : List Eff :=
  [Eff.addSiteEff env.freshSiteId newSiteName,
   Eff.selectSite env.freshSiteId,
   Eff.updateSiteStatus env.freshSiteId "provisioning",
   Eff.updateSiteMessage env.freshSiteId "Restoring your site backup"]

end Clone

/-- The documented restore step order (code state names; the spec's
step names map one-to-one: gettingCredentials = gettingBackupCredentials,
creatingStagingDir = creatingTmpDir, transferringSnapshot =
restoringBackup, applyingFilesystem = movingSiteFromTmpDir,
applyingDatabase = restoringDatabase). -/
def restoreOrder : List Restore.St :=
  [.gettingBackupCredentials, .creatingTmpDir, .restoringBackup,
   .movingSiteFromTmpDir, .restoringDatabase, .finished]

/-- The documented clone step order (code state names; additionally
settingUpDestination = setupDestinationSite, provisioning =
provisioningSite, rewritingDomain = searchReplaceDomain). -/
def cloneOrder : List Clone.St :=
  [.gettingBackupCredentials, .setupDestinationSite, .creatingTmpDir,
   .cloningBackup, .movingSiteFromTmpDir, .provisioningSite,
   .restoringDatabase, .searchReplaceDomain, .finished]

/-- A concrete environment in which every collaborator succeeds. -/
def envAllOk : Env :=
  { hubOk := true, tmpOk := true, resticOk := true, fsOk := true,
    provisionOk := true, searchReplaceOk := true,
    dumpInSnapshot := true, dumpRows := ["row1"], dbFails := fun _ => false,
    formatSiteNicename := toLowerStr, freshSiteId := "fresh1" }

/-- A concrete initial world: no workflow in flight, one registered
site named "Existing", a site directory with an `app` tree, the `conf`
subtree, and a dotfile, and a non-empty database. -/
def w0 : World :=
  { slot := none, sites := ["Existing"], siteEntries := ["app", "conf", ".htaccess"],
    db := ⟨["old"], "STRICT"⟩, tmpDirExists := false, tmpPopulated := false,
    effects := [] }

/-- A concrete site argument. -/
def site0 : SiteArg :=
  { id := "s1", name := "My Site", path := "sites-my-site", status := "running" }

namespace Restore

lemma runSvc_slot (env : Env) (s : St) (c : Ctx) (w : World) :
    ((runSvc env s c w).2.2).slot = w.slot := by
  cases s <;> simp only [runSvc] <;> (repeat' split) <;> rfl

lemma enterState_slot (t : St) (w : World) : (enterState t w).slot = w.slot := by
  simp only [enterState]
  split <;> rfl

lemma failureActions_slot (c : Ctx) (w : World) (msg : String) :
    ((failureActions c w msg).2).slot = w.slot := rfl

lemma stepRun_slot (env : Env) (n : Nat) (s : St) (c : Ctx) (w : World) :
    ((stepRun env n s c w).2.2.1).slot = w.slot := by
  induction n generalizing s c w with
  | zero => rfl
  | succ n ih =>
    simp only [stepRun]
    cases h : onDoneTarget s with
    | none => rfl
    | some t =>
      rcases hsvc : runSvc env s c w with ⟨err, c1, w1⟩
      have hw1 : w1.slot = w.slot := by
        have := runSvc_slot env s c w
        rw [hsvc] at this
        exact this
      cases err <;> simp [ih, enterState_slot, failureActions_slot, hw1]

lemma run_hubFail (env : Env) (w : World) (mid : Nat) (site : SiteArg)
    (h : w.slot = none) (hhub : env.hubOk = false) :
    restoreFromBackup env w mid site =
      { started := true, slotAfterSet := some mid, slotAfterMachineDone := some mid,
        finalState := some .failed,
        finalCtx := some
          { site := site, initialSiteStatus := site.status,
            hasCredentials := false, tmpDirAssigned := false,
            error := some "CredentialLookupError" },
        visited := [.gettingBackupCredentials, .failed],
        resolved := some none,
        world := { w with
          slot := none
          effects := w.effects ++
            [Eff.bkStarted, Eff.logState "gettingBackupCredentials"]
            ++ failTail site.id site.status } } := by
  simp [restoreFromBackup, h, hhub, stepRun, runSvc, enterState, failureActions,
    onDoneTarget, St.label, stateOwnProp, failTail]

lemma run_tmpFail (env : Env) (w : World) (mid : Nat) (site : SiteArg)
    (h : w.slot = none) (hhub : env.hubOk = true) (htmp : env.tmpOk = false) :
    restoreFromBackup env w mid site =
      { started := true, slotAfterSet := some mid, slotAfterMachineDone := some mid,
        finalState := some .failed,
        finalCtx := some
          { site := site, initialSiteStatus := site.status,
            hasCredentials := true, tmpDirAssigned := false,
            error := some "WorkspaceCreationError" },
        visited := [.gettingBackupCredentials, .creatingTmpDir, .failed],
        resolved := some none,
        world := { w with
          slot := none
          effects := w.effects ++
            [Eff.bkStarted, Eff.logState "gettingBackupCredentials",
             Eff.bkStarted, Eff.logState "creatingTmpDir"]
            ++ failTail site.id site.status } } := by
  simp [restoreFromBackup, h, hhub, htmp, stepRun, runSvc, enterState, failureActions,
    onDoneTarget, St.label, stateOwnProp, failTail]

lemma run_resticFail (env : Env) (w : World) (mid : Nat) (site : SiteArg)
    (h : w.slot = none) (hhub : env.hubOk = true) (htmp : env.tmpOk = true)
    (hrestic : env.resticOk = false) :
    restoreFromBackup env w mid site =
      { started := true, slotAfterSet := some mid, slotAfterMachineDone := some mid,
        finalState := some .failed,
        finalCtx := some
          { site := site, initialSiteStatus := site.status,
            hasCredentials := true, tmpDirAssigned := true,
            error := some "TransferError" },
        visited := [.gettingBackupCredentials, .creatingTmpDir, .restoringBackup, .failed],
        resolved := some none,
        world := { w with
          slot := none
          tmpDirExists := true
          effects := w.effects ++
            [Eff.bkStarted, Eff.logState "gettingBackupCredentials",
             Eff.bkStarted, Eff.logState "creatingTmpDir",
             Eff.bkStarted, Eff.logState "restoringBackup"]
            ++ failTail site.id site.status } } := by
  simp [restoreFromBackup, h, hhub, htmp, hrestic, stepRun, runSvc, enterState,
    failureActions, onDoneTarget, St.label, stateOwnProp, failTail]

lemma run_fsFail (env : Env) (w : World) (mid : Nat) (site : SiteArg)
    (h : w.slot = none) (hhub : env.hubOk = true) (htmp : env.tmpOk = true)
    (hrestic : env.resticOk = true) (hfs : env.fsOk = false) :
    restoreFromBackup env w mid site =
      { started := true, slotAfterSet := some mid, slotAfterMachineDone := some mid,
        finalState := some .failed,
        finalCtx := some
          { site := site, initialSiteStatus := site.status,
            hasCredentials := true, tmpDirAssigned := true,
            error := some "FilesystemError" },
        visited := [.gettingBackupCredentials, .creatingTmpDir, .restoringBackup,
          .movingSiteFromTmpDir, .failed],
        resolved := some none,
        world := { w with
          slot := none
          tmpDirExists := true
          tmpPopulated := true
          effects := w.effects ++
            [Eff.bkStarted, Eff.logState "gettingBackupCredentials",
             Eff.bkStarted, Eff.logState "creatingTmpDir",
             Eff.bkStarted, Eff.logState "restoringBackup",
             Eff.bkStarted, Eff.logState "movingSiteFromTmpDir"]
            ++ failTail site.id site.status } } := by
  simp [restoreFromBackup, h, hhub, htmp, hrestic, hfs, stepRun, runSvc, enterState,
    failureActions, onDoneTarget, St.label, stateOwnProp, failTail]

lemma run_dbFail (env : Env) (w : World) (mid : Nat) (site : SiteArg) (e : DbOp)
    (h : w.slot = none) (hhub : env.hubOk = true) (htmp : env.tmpOk = true)
    (hrestic : env.resticOk = true) (hfs : env.fsOk = true)
    (hdb : (importDatabase env.dumpInSnapshot env.dumpRows env.dbFails w.db).error
      = some e) :
    restoreFromBackup env w mid site =
      { started := true, slotAfterSet := some mid, slotAfterMachineDone := some mid,
        finalState := some .failed,
        finalCtx := some
          { site := site, initialSiteStatus := site.status,
            hasCredentials := true, tmpDirAssigned := true,
            error := some "DatabaseImportError" },
        visited := [.gettingBackupCredentials, .creatingTmpDir, .restoringBackup,
          .movingSiteFromTmpDir, .restoringDatabase, .failed],
        resolved := some none,
        world := { w with
          slot := none
          tmpDirExists := true
          tmpPopulated := true
          db := (importDatabase env.dumpInSnapshot env.dumpRows env.dbFails w.db).db
          effects := w.effects ++
            [Eff.bkStarted, Eff.logState "gettingBackupCredentials",
             Eff.bkStarted, Eff.logState "creatingTmpDir",
             Eff.bkStarted, Eff.logState "restoringBackup",
             Eff.bkStarted, Eff.logState "movingSiteFromTmpDir"]
            ++ (getFilteredSiteFiles w.siteEntries).map Eff.removePath
            ++ [Eff.copyTmpToPath site.path,
                Eff.bkStarted, Eff.logState "restoringDatabase"]
            ++ (importDatabase env.dumpInSnapshot env.dumpRows env.dbFails w.db).ops.map
                Eff.sql
            ++ failTail site.id site.status } } := by
  have hwarn : (importDatabase env.dumpInSnapshot env.dumpRows env.dbFails
      w.db).warnedNoFile = false := by
    revert hdb
    simp only [importDatabase]
    repeat' split
    all_goals simp
  simp [restoreFromBackup, h, hhub, htmp, hrestic, hfs, hdb, hwarn, stepRun, runSvc,
    enterState, failureActions, onDoneTarget, St.label, stateOwnProp, failTail]

lemma run_success (env : Env) (w : World) (mid : Nat) (site : SiteArg)
    (h : w.slot = none) (hhub : env.hubOk = true) (htmp : env.tmpOk = true)
    (hrestic : env.resticOk = true) (hfs : env.fsOk = true)
    (hdb : (importDatabase env.dumpInSnapshot env.dumpRows env.dbFails w.db).error
      = none) :
    restoreFromBackup env w mid site =
      { started := true, slotAfterSet := some mid, slotAfterMachineDone := some mid,
        finalState := some .finished,
        finalCtx := some
          { site := site, initialSiteStatus := site.status,
            hasCredentials := true, tmpDirAssigned := true, error := none },
        visited := [.gettingBackupCredentials, .creatingTmpDir, .restoringBackup,
          .movingSiteFromTmpDir, .restoringDatabase, .finished],
        resolved := some none,
        world := { w with
          slot := none
          tmpDirExists := false
          tmpPopulated := false
          db := (importDatabase env.dumpInSnapshot env.dumpRows env.dbFails w.db).db
          effects := w.effects ++
            [Eff.bkStarted, Eff.logState "gettingBackupCredentials",
             Eff.bkStarted, Eff.logState "creatingTmpDir",
             Eff.bkStarted, Eff.logState "restoringBackup",
             Eff.bkStarted, Eff.logState "movingSiteFromTmpDir"]
            ++ (getFilteredSiteFiles w.siteEntries).map Eff.removePath
            ++ [Eff.copyTmpToPath site.path,
                Eff.bkStarted, Eff.logState "restoringDatabase"]
            ++ (if (importDatabase env.dumpInSnapshot env.dumpRows env.dbFails
                  w.db).warnedNoFile
                then [Eff.warnNoSqlFile]
                else (importDatabase env.dumpInSnapshot env.dumpRows env.dbFails
                  w.db).ops.map Eff.sql)
            ++ [Eff.bkStarted, Eff.logState "finished",
                Eff.bkCompleted, Eff.promiseResolved] } } := by
  simp [restoreFromBackup, h, hhub, htmp, hrestic, hfs, hdb, stepRun, runSvc,
    enterState, failureActions, onDoneTarget, St.label, stateOwnProp]

end Restore

namespace Clone

lemma clone_runSvc_slot (env : Env) (s : St) (c : Ctx) (w : World) :
    ((runSvc env s c w).2.2).slot = w.slot := by
  cases s <;> simp only [runSvc] <;> (repeat' split) <;> rfl

lemma clone_enterState_slot (t : St) (w : World) : (enterState t w).slot = w.slot := by
  simp only [enterState]
  split <;> rfl

lemma clone_failureActions_slot (s : St) (c : Ctx) (w : World) (msg : String) :
    ((failureActions s c w msg).2).slot = w.slot := by
  simp only [failureActions]
  split <;> rfl

lemma clone_stepRun_slot (env : Env) (n : Nat) (s : St) (c : Ctx) (w : World) :
    ((stepRun env n s c w).2.2.1).slot = w.slot := by
  induction n generalizing s c w with
  | zero => rfl
  | succ n ih =>
    simp only [stepRun]
    cases h : onDoneTarget s with
    | none => rfl
    | some t =>
      rcases hsvc : runSvc env s c w with ⟨err, c1, w1⟩
      have hw1 : w1.slot = w.slot := by
        have := clone_runSvc_slot env s c w
        rw [hsvc] at this
        exact this
      cases err <;> simp [ih, clone_enterState_slot, clone_failureActions_slot, hw1]

lemma clone_run_hubFail (env : Env) (w : World) (mid : Nat) (base : SiteArg) (nm : String)
    (h : w.slot = none) (hhub : env.hubOk = false) :
    cloneFromBackup env w mid base nm =
      { started := true, slotAfterSet := some mid, slotAfterMachineDone := some mid,
        finalState := some .failed,
        finalCtx := some
          { baseSite := base, newSiteName := nm, destinationSite := none,
            hasCredentials := false, tmpDirAssigned := false,
            error := some "CredentialLookupError" },
        visited := [.gettingBackupCredentials, .failed],
        resolved := some none,
        world := { w with
          slot := none
          effects := w.effects ++
            [Eff.bkStarted, Eff.logState "gettingBackupCredentials"]
            ++ baseFailTail base.id } } := by
  simp [cloneFromBackup, h, hhub, stepRun, runSvc, enterState, failureActions,
    usesBaseSiteErrorHandler, onDoneTarget, St.label, stateOwnProp, baseFailTail]

lemma clone_run_dupName (env : Env) (w : World) (mid : Nat) (base : SiteArg) (nm : String)
    (h : w.slot = none) (hhub : env.hubOk = true)
    (hdup : checkForDuplicateSiteName nm (env.formatSiteNicename nm) w.sites = true) :
    cloneFromBackup env w mid base nm =
      { started := true, slotAfterSet := some mid, slotAfterMachineDone := some mid,
        finalState := some .failed,
        finalCtx := some
          { baseSite := base, newSiteName := nm, destinationSite := none,
            hasCredentials := true, tmpDirAssigned := false,
            error := some siteDomainTakenError },
        visited := [.gettingBackupCredentials, .setupDestinationSite, .failed],
        resolved := some none,
        world := { w with
          slot := none
          effects := w.effects ++
            [Eff.bkStarted, Eff.logState "gettingBackupCredentials",
             Eff.bkStarted, Eff.logState "setupDestinationSite",
             Eff.errorDialog]
            ++ baseFailTail base.id } } := by
  simp [cloneFromBackup, h, hhub, hdup, stepRun, runSvc, enterState, failureActions,
    usesBaseSiteErrorHandler, onDoneTarget, St.label, stateOwnProp, baseFailTail]

lemma clone_run_tmpFail (env : Env) (w : World) (mid : Nat) (base : SiteArg) (nm : String)
    (h : w.slot = none) (hhub : env.hubOk = true)
    (hdup : checkForDuplicateSiteName nm (env.formatSiteNicename nm) w.sites = false)
    (htmp : env.tmpOk = false) :
    cloneFromBackup env w mid base nm =
      { started := true, slotAfterSet := some mid, slotAfterMachineDone := some mid,
        finalState := some .failed,
        finalCtx := some
          { baseSite := base, newSiteName := nm,
            destinationSite := some (destSiteOf env nm),
            hasCredentials := true, tmpDirAssigned := false,
            error := some "WorkspaceCreationError" },
        visited := [.gettingBackupCredentials, .setupDestinationSite,
          .creatingTmpDir, .failed],
        resolved := some none,
        world := { w with
          slot := none
          sites := w.sites ++ [nm]
          effects := w.effects ++
            [Eff.bkStarted, Eff.logState "gettingBackupCredentials",
             Eff.bkStarted, Eff.logState "setupDestinationSite"]
            ++ setupEffects env nm
            ++ [Eff.bkStarted, Eff.logState "creatingTmpDir"]
            ++ deleteFailTail env.freshSiteId base.id } } := by
  simp [cloneFromBackup, h, hhub, hdup, htmp, stepRun, runSvc, enterState,
    failureActions, usesBaseSiteErrorHandler, onDoneTarget, St.label, stateOwnProp,
    deleteFailTail, destSiteOf, setupEffects]

lemma clone_run_resticFail (env : Env) (w : World) (mid : Nat) (base : SiteArg) (nm : String)
    (h : w.slot = none) (hhub : env.hubOk = true)
    (hdup : checkForDuplicateSiteName nm (env.formatSiteNicename nm) w.sites = false)
    (htmp : env.tmpOk = true) (hrestic : env.resticOk = false) :
    cloneFromBackup env w mid base nm =
      { started := true, slotAfterSet := some mid, slotAfterMachineDone := some mid,
        finalState := some .failed,
        finalCtx := some
          { baseSite := base, newSiteName := nm,
            destinationSite := some (destSiteOf env nm),
            hasCredentials := true, tmpDirAssigned := true,
            error := some "TransferError" },
        visited := [.gettingBackupCredentials, .setupDestinationSite,
          .creatingTmpDir, .cloningBackup, .failed],
        resolved := some none,
        world := { w with
          slot := none
          sites := w.sites ++ [nm]
          tmpDirExists := true
          effects := w.effects ++
            [Eff.bkStarted, Eff.logState "gettingBackupCredentials",
             Eff.bkStarted, Eff.logState "setupDestinationSite"]
            ++ setupEffects env nm
            ++ [Eff.bkStarted, Eff.logState "creatingTmpDir",
                Eff.bkStarted, Eff.logState "cloningBackup"]
            ++ deleteFailTail env.freshSiteId base.id } } := by
  simp [cloneFromBackup, h, hhub, hdup, htmp, hrestic, stepRun, runSvc, enterState,
    failureActions, usesBaseSiteErrorHandler, onDoneTarget, St.label, stateOwnProp,
    deleteFailTail, destSiteOf, setupEffects]

lemma clone_run_fsFail (env : Env) (w : World) (mid : Nat) (base : SiteArg) (nm : String)
    (h : w.slot = none) (hhub : env.hubOk = true)
    (hdup : checkForDuplicateSiteName nm (env.formatSiteNicename nm) w.sites = false)
    (htmp : env.tmpOk = true) (hrestic : env.resticOk = true)
    (hfs : env.fsOk = false) :
    cloneFromBackup env w mid base nm =
      { started := true, slotAfterSet := some mid, slotAfterMachineDone := some mid,
        finalState := some .failed,
        finalCtx := some
          { baseSite := base, newSiteName := nm,
            destinationSite := some (destSiteOf env nm),
            hasCredentials := true, tmpDirAssigned := true,
            error := some "FilesystemError" },
        visited := [.gettingBackupCredentials, .setupDestinationSite,
          .creatingTmpDir, .cloningBackup, .movingSiteFromTmpDir, .failed],
        resolved := some none,
        world := { w with
          slot := none
          sites := w.sites ++ [nm]
          tmpDirExists := true
          tmpPopulated := true
          effects := w.effects ++
            [Eff.bkStarted, Eff.logState "gettingBackupCredentials",
             Eff.bkStarted, Eff.logState "setupDestinationSite"]
            ++ setupEffects env nm
            ++ [Eff.bkStarted, Eff.logState "creatingTmpDir",
                Eff.bkStarted, Eff.logState "cloningBackup",
                Eff.bkStarted, Eff.logState "movingSiteFromTmpDir"]
            ++ deleteFailTail env.freshSiteId base.id } } := by
  simp [cloneFromBackup, h, hhub, hdup, htmp, hrestic, hfs, stepRun, runSvc,
    enterState, failureActions, usesBaseSiteErrorHandler, onDoneTarget, St.label,
    stateOwnProp, deleteFailTail, destSiteOf, setupEffects]

lemma clone_run_provisionFail (env : Env) (w : World) (mid : Nat) (base : SiteArg)
    (nm : String)
    (h : w.slot = none) (hhub : env.hubOk = true)
    (hdup : checkForDuplicateSiteName nm (env.formatSiteNicename nm) w.sites = false)
    (htmp : env.tmpOk = true) (hrestic : env.resticOk = true)
    (hfs : env.fsOk = true) (hprov : env.provisionOk = false) :
    cloneFromBackup env w mid base nm =
      { started := true, slotAfterSet := some mid, slotAfterMachineDone := some mid,
        finalState := some .failed,
        finalCtx := some
          { baseSite := base, newSiteName := nm,
            destinationSite := some (destSiteOf env nm),
            hasCredentials := true, tmpDirAssigned := true,
            error := some "ProvisioningError" },
        visited := [.gettingBackupCredentials, .setupDestinationSite,
          .creatingTmpDir, .cloningBackup, .movingSiteFromTmpDir,
          .provisioningSite, .failed],
        resolved := some none,
        world := { w with
          slot := none
          sites := w.sites ++ [nm]
          tmpDirExists := true
          tmpPopulated := true
          effects := w.effects ++
            [Eff.bkStarted, Eff.logState "gettingBackupCredentials",
             Eff.bkStarted, Eff.logState "setupDestinationSite"]
            ++ setupEffects env nm
            ++ [Eff.bkStarted, Eff.logState "creatingTmpDir",
                Eff.bkStarted, Eff.logState "cloningBackup",
                Eff.bkStarted, Eff.logState "movingSiteFromTmpDir",
                Eff.copyTmpToPath (env.formatSiteNicename nm),
                Eff.bkStarted, Eff.logState "provisioningSite"]
            ++ deleteFailTail env.freshSiteId base.id } } := by
  simp [cloneFromBackup, h, hhub, hdup, htmp, hrestic, hfs, hprov, stepRun, runSvc,
    enterState, failureActions, usesBaseSiteErrorHandler, onDoneTarget, St.label,
    stateOwnProp, deleteFailTail, destSiteOf, setupEffects]

lemma clone_run_dbFail (env : Env) (w : World) (mid : Nat) (base : SiteArg) (nm : String)
    (e : DbOp)
    (h : w.slot = none) (hhub : env.hubOk = true)
    (hdup : checkForDuplicateSiteName nm (env.formatSiteNicename nm) w.sites = false)
    (htmp : env.tmpOk = true) (hrestic : env.resticOk = true)
    (hfs : env.fsOk = true) (hprov : env.provisionOk = true)
    (hdb : (importDatabase env.dumpInSnapshot env.dumpRows env.dbFails w.db).error
      = some e) :
    cloneFromBackup env w mid base nm =
      { started := true, slotAfterSet := some mid, slotAfterMachineDone := some mid,
        finalState := some .failed,
        finalCtx := some
          { baseSite := base, newSiteName := nm,
            destinationSite := some (destSiteOf env nm),
            hasCredentials := true, tmpDirAssigned := true,
            error := some "DatabaseImportError" },
        visited := [.gettingBackupCredentials, .setupDestinationSite,
          .creatingTmpDir, .cloningBackup, .movingSiteFromTmpDir,
          .provisioningSite, .restoringDatabase, .failed],
        resolved := some none,
        world := { w with
          slot := none
          sites := w.sites ++ [nm]
          tmpDirExists := true
          tmpPopulated := true
          db := (importDatabase env.dumpInSnapshot env.dumpRows env.dbFails w.db).db
          effects := w.effects ++
            [Eff.bkStarted, Eff.logState "gettingBackupCredentials",
             Eff.bkStarted, Eff.logState "setupDestinationSite"]
            ++ setupEffects env nm
            ++ [Eff.bkStarted, Eff.logState "creatingTmpDir",
                Eff.bkStarted, Eff.logState "cloningBackup",
                Eff.bkStarted, Eff.logState "movingSiteFromTmpDir",
                Eff.copyTmpToPath (env.formatSiteNicename nm),
                Eff.bkStarted, Eff.logState "provisioningSite",
                Eff.bkStarted, Eff.logState "restoringDatabase"]
            ++ (importDatabase env.dumpInSnapshot env.dumpRows env.dbFails w.db).ops.map
                Eff.sql
            ++ deleteFailTail env.freshSiteId base.id } } := by
  have hwarn : (importDatabase env.dumpInSnapshot env.dumpRows env.dbFails
      w.db).warnedNoFile = false := by
    revert hdb
    simp only [importDatabase]
    repeat' split
    all_goals simp
  simp [cloneFromBackup, h, hhub, hdup, htmp, hrestic, hfs, hprov, hdb, hwarn,
    stepRun, runSvc, enterState, failureActions, usesBaseSiteErrorHandler,
    onDoneTarget, St.label, stateOwnProp, deleteFailTail, destSiteOf, setupEffects]

lemma clone_run_srFail (env : Env) (w : World) (mid : Nat) (base : SiteArg) (nm : String)
    (h : w.slot = none) (hhub : env.hubOk = true)
    (hdup : checkForDuplicateSiteName nm (env.formatSiteNicename nm) w.sites = false)
    (htmp : env.tmpOk = true) (hrestic : env.resticOk = true)
    (hfs : env.fsOk = true) (hprov : env.provisionOk = true)
    (hdb : (importDatabase env.dumpInSnapshot env.dumpRows env.dbFails w.db).error
      = none)
    (hsr : env.searchReplaceOk = false) :
    cloneFromBackup env w mid base nm =
      { started := true, slotAfterSet := some mid, slotAfterMachineDone := some mid,
        finalState := some .failed,
        finalCtx := some
          { baseSite := base, newSiteName := nm,
            destinationSite := some (destSiteOf env nm),
            hasCredentials := true, tmpDirAssigned := true,
            error := some "DomainRewriteError" },
        visited := [.gettingBackupCredentials, .setupDestinationSite,
          .creatingTmpDir, .cloningBackup, .movingSiteFromTmpDir,
          .provisioningSite, .restoringDatabase, .searchReplaceDomain, .failed],
        resolved := some none,
        world := { w with
          slot := none
          sites := w.sites ++ [nm]
          tmpDirExists := true
          tmpPopulated := true
          db := (importDatabase env.dumpInSnapshot env.dumpRows env.dbFails w.db).db
          effects := w.effects ++
            [Eff.bkStarted, Eff.logState "gettingBackupCredentials",
             Eff.bkStarted, Eff.logState "setupDestinationSite"]
            ++ setupEffects env nm
            ++ [Eff.bkStarted, Eff.logState "creatingTmpDir",
                Eff.bkStarted, Eff.logState "cloningBackup",
                Eff.bkStarted, Eff.logState "movingSiteFromTmpDir",
                Eff.copyTmpToPath (env.formatSiteNicename nm),
                Eff.bkStarted, Eff.logState "provisioningSite",
                Eff.bkStarted, Eff.logState "restoringDatabase"]
            ++ (if (importDatabase env.dumpInSnapshot env.dumpRows env.dbFails
                  w.db).warnedNoFile
                then [Eff.warnNoSqlFile]
                else (importDatabase env.dumpInSnapshot env.dumpRows env.dbFails
                  w.db).ops.map Eff.sql)
            ++ [Eff.bkStarted, Eff.logState "searchReplaceDomain",
                Eff.updateSiteStatus env.freshSiteId "provisioning",
                Eff.updateSiteMessage env.freshSiteId "Changing site domain"]
            ++ deleteFailTail env.freshSiteId base.id } } := by
  simp [cloneFromBackup, h, hhub, hdup, htmp, hrestic, hfs, hprov, hdb, hsr,
    stepRun, runSvc, enterState, failureActions, usesBaseSiteErrorHandler,
    onDoneTarget, St.label, stateOwnProp, deleteFailTail, destSiteOf, setupEffects]

lemma clone_run_success (env : Env) (w : World) (mid : Nat) (base : SiteArg) (nm : String)
    (h : w.slot = none) (hhub : env.hubOk = true)
    (hdup : checkForDuplicateSiteName nm (env.formatSiteNicename nm) w.sites = false)
    (htmp : env.tmpOk = true) (hrestic : env.resticOk = true)
    (hfs : env.fsOk = true) (hprov : env.provisionOk = true)
    (hdb : (importDatabase env.dumpInSnapshot env.dumpRows env.dbFails w.db).error
      = none)
    (hsr : env.searchReplaceOk = true) :
    cloneFromBackup env w mid base nm =
      { started := true, slotAfterSet := some mid, slotAfterMachineDone := some mid,
        finalState := some .finished,
        finalCtx := some
          { baseSite := base, newSiteName := nm,
            destinationSite := some (destSiteOf env nm),
            hasCredentials := true, tmpDirAssigned := true, error := none },
        visited := [.gettingBackupCredentials, .setupDestinationSite,
          .creatingTmpDir, .cloningBackup, .movingSiteFromTmpDir,
          .provisioningSite, .restoringDatabase, .searchReplaceDomain, .finished],
        resolved := some none,
        world := { w with
          slot := none
          sites := w.sites ++ [nm]
          tmpDirExists := false
          tmpPopulated := false
          db := (importDatabase env.dumpInSnapshot env.dumpRows env.dbFails w.db).db
          effects := w.effects ++
            [Eff.bkStarted, Eff.logState "gettingBackupCredentials",
             Eff.bkStarted, Eff.logState "setupDestinationSite"]
            ++ setupEffects env nm
            ++ [Eff.bkStarted, Eff.logState "creatingTmpDir",
                Eff.bkStarted, Eff.logState "cloningBackup",
                Eff.bkStarted, Eff.logState "movingSiteFromTmpDir",
                Eff.copyTmpToPath (env.formatSiteNicename nm),
                Eff.bkStarted, Eff.logState "provisioningSite",
                Eff.bkStarted, Eff.logState "restoringDatabase"]
            ++ (if (importDatabase env.dumpInSnapshot env.dumpRows env.dbFails
                  w.db).warnedNoFile
                then [Eff.warnNoSqlFile]
                else (importDatabase env.dumpInSnapshot env.dumpRows env.dbFails
                  w.db).ops.map Eff.sql)
            ++ [Eff.bkStarted, Eff.logState "searchReplaceDomain",
                Eff.updateSiteStatus env.freshSiteId "provisioning",
                Eff.updateSiteMessage env.freshSiteId "Changing site domain",
                Eff.restartSite env.freshSiteId,
                Eff.bkStarted, Eff.logState "finished",
                Eff.bkCompleted, Eff.promiseResolved] } } := by
  simp [cloneFromBackup, h, hhub, hdup, htmp, hrestic, hfs, hprov, hdb, hsr,
    stepRun, runSvc, enterState, failureActions, usesBaseSiteErrorHandler,
    onDoneTarget, St.label, stateOwnProp, destSiteOf, setupEffects]

end Clone

/-- C1: Single-flight guard — a call to `restoreFromBackup` or
`cloneFromBackup` made while any workflow is in flight returns without
constructing a WorkflowContext, starting a machine, or mutating any
site state (only a warning is logged), leaving the in-flight workflow's
state untouched; on an admitted run the process-wide in-progress slot
holds the active machine from entry until the machine stops, and is
cleared exactly then, regardless of success or failure. -/
theorem c1_single_flight_guard
    (env : Env) (wBusy wFree : World) (mid m : Nat) (site base : SiteArg) (nm : String)
    (hbusy : wBusy.slot = some m) (hfree : wFree.slot = none) :
    ((Restore.restoreFromBackup env wBusy mid site).started = false
      ∧ (Restore.restoreFromBackup env wBusy mid site).finalCtx = none
      ∧ (Restore.restoreFromBackup env wBusy mid site).visited = []
      ∧ (Restore.restoreFromBackup env wBusy mid site).resolved = none
      ∧ (Restore.restoreFromBackup env wBusy mid site).world
          = { wBusy with effects := wBusy.effects ++ [Eff.warnBusy] })
    ∧ ((Clone.cloneFromBackup env wBusy mid base nm).started = false
      ∧ (Clone.cloneFromBackup env wBusy mid base nm).finalCtx = none
      ∧ (Clone.cloneFromBackup env wBusy mid base nm).visited = []
      ∧ (Clone.cloneFromBackup env wBusy mid base nm).resolved = none
      ∧ (Clone.cloneFromBackup env wBusy mid base nm).world
          = { wBusy with effects := wBusy.effects ++ [Eff.warnBusy] })
    ∧ ((Restore.restoreFromBackup env wFree mid site).slotAfterSet = some mid
      ∧ (Restore.restoreFromBackup env wFree mid site).slotAfterMachineDone = some mid
      ∧ (Restore.restoreFromBackup env wFree mid site).world.slot = none)
    ∧ ((Clone.cloneFromBackup env wFree mid base nm).slotAfterSet = some mid
      ∧ (Clone.cloneFromBackup env wFree mid base nm).slotAfterMachineDone = some mid
      ∧ (Clone.cloneFromBackup env wFree mid base nm).world.slot = none) := by
  refine ⟨?_, ?_, ?_, ?_⟩
  · simp [Restore.restoreFromBackup, hbusy]
  · simp [Clone.cloneFromBackup, hbusy]
  · simp [Restore.restoreFromBackup, hfree, Restore.stepRun_slot]
  · simp [Clone.cloneFromBackup, hfree, Clone.clone_stepRun_slot]

/-- C1 witness: concrete busy and free calls. -/
theorem c1_single_flight_guard_witness :
    (Restore.restoreFromBackup envAllOk { w0 with slot := some 3 } 7 site0).started
        = false
    ∧ (Clone.cloneFromBackup envAllOk w0 7 site0 "New Site").world.slot = none := by
  have h := c1_single_flight_guard envAllOk { w0 with slot := some 3 } w0 7 3
    site0 site0 "New Site" rfl rfl
  exact ⟨h.1.1, h.2.2.2.2.2⟩

/-- C2: Result totality — the claim that an admitted failing run
resolves to an object carrying the captured error does not hold on the
code: the `onStop` handler destructures `error` from the interpreter's
`_state`, which is the xstate `State` object and has no `error`
property (the captured error lives at `_state.context.error`), so the
destructured value is always undefined and the promise resolves `null`
on failure as well.  Evaluated here at a failing restore run: the
machine ends in `failed` with the error recorded on its context, yet
the promise settles with `null`. -/
theorem c2_promise_resolves_null_despite_error :
    ((Restore.restoreFromBackup { envAllOk with hubOk := false } w0 7 site0).finalState
        = some Restore.St.failed)
    ∧ ((Restore.restoreFromBackup { envAllOk with hubOk := false } w0 7
          site0).finalCtx.map Restore.Ctx.error)
        = some (some "CredentialLookupError")
    ∧ ((Restore.restoreFromBackup { envAllOk with hubOk := false } w0 7 site0).resolved
        = some none)
    ∧ ((Clone.cloneFromBackup { envAllOk with tmpOk := false } w0 7 site0
          "New Site").finalState = some Clone.St.failed)
    ∧ ((Clone.cloneFromBackup { envAllOk with tmpOk := false } w0 7 site0
          "New Site").finalCtx.map Clone.Ctx.error)
        = some (some "WorkspaceCreationError")
    ∧ ((Clone.cloneFromBackup { envAllOk with tmpOk := false } w0 7 site0
          "New Site").resolved = some none) := by
  decide

/-- C5: Name-collision short-circuit — a clone invocation whose
requested name collides (case-insensitively, in normalized form) with
an existing site's name fails in the destination-setup step with the
duplicate-name error, before any destination site record is registered,
before any staging directory is created, and before any disk write: the
final world differs from the initial one only in the cleared slot and
the appended trace (error dialog, redirect, banner — no `addSite`, no
staging-dir creation, no `removePath`/copy effect). -/
theorem c5_name_collision_short_circuit
    (env : Env) (w : World) (mid : Nat) (base : SiteArg) (nm : String)
    (h : w.slot = none) (hhub : env.hubOk = true)
    (hdup : checkForDuplicateSiteName nm (env.formatSiteNicename nm) w.sites = true) :
    ((Clone.cloneFromBackup env w mid base nm).finalState = some Clone.St.failed)
    ∧ ((Clone.cloneFromBackup env w mid base nm).finalCtx.map Clone.Ctx.error)
        = some (some Clone.siteDomainTakenError)
    ∧ ((Clone.cloneFromBackup env w mid base nm).finalCtx.map
        Clone.Ctx.destinationSite) = some none
    ∧ (Clone.cloneFromBackup env w mid base nm).world
        = { w with
            slot := none
            effects := w.effects ++
              [Eff.bkStarted, Eff.logState "gettingBackupCredentials",
               Eff.bkStarted, Eff.logState "setupDestinationSite",
               Eff.errorDialog]
              ++ Clone.baseFailTail base.id } := by
  rw [Clone.clone_run_dupName env w mid base nm h hhub hdup]
  refine ⟨rfl, rfl, rfl, by simp⟩

/-- C5 witness: cloning over the registered site name "Existing"
(case-insensitive collision). -/
theorem c5_name_collision_short_circuit_witness :
    (checkForDuplicateSiteName "existing"
        (envAllOk.formatSiteNicename "existing") w0.sites = true)
    ∧ ((Clone.cloneFromBackup envAllOk w0 7 site0 "existing").finalState
        = some Clone.St.failed)
    ∧ (Clone.cloneFromBackup envAllOk w0 7 site0 "existing").world.sites = w0.sites := by
  have h := c5_name_collision_short_circuit envAllOk w0 7 site0 "existing"
    rfl rfl (by decide)
  refine ⟨by decide, h.1, ?_⟩
  rw [h.2.2.2]

/-- C3 counterexample: a clone run that fails in the
`setupDestinationSite` state (the `settingUpDestination` step) — the
duplicate-name failure — dispatches no `deleteSite` at all, because
that state's `onError` routes to `onBaseSiteErrorFactory`, whose
recovery action never deletes the destination site.  The claim requires
a `deleteSite` with `trashFiles` for every failure at or after
`settingUpDestination`. -/
theorem c3_counterexample_setup_failure_no_delete :
    ((Clone.cloneFromBackup envAllOk w0 7 site0 "Existing").finalState
        = some Clone.St.failed)
    ∧ ((Clone.cloneFromBackup envAllOk w0 7 site0 "Existing").visited
        = [Clone.St.gettingBackupCredentials, Clone.St.setupDestinationSite,
           Clone.St.failed])
    ∧ (((Clone.cloneFromBackup envAllOk w0 7 site0 "Existing").world.effects.filter
        (fun e => match e with | Eff.deleteSiteEff _ _ => true | _ => false)) = []) := by
  decide

/-- C3 amended: for every clone failure strictly after the
destination-setup state (that is, in any state from `creatingTmpDir`
on, exactly the runs whose final context carries a destination site),
the recovery action dispatches `deleteSite` with `trashFiles: true` for
the destination site before the promise settles; failures during
credential resolution create no destination artifact whatsoever (and
destination-setup failures on a duplicate name create none either —
see the counterexample — though they dispatch no `deleteSite`). -/
theorem c3_rollback_completeness_amended
    (env : Env) (w : World) (mid : Nat) (base : SiteArg) (nm : String)
    (h : w.slot = none) :
    (∀ cF dest,
      (Clone.cloneFromBackup env w mid base nm).finalState = some Clone.St.failed →
      (Clone.cloneFromBackup env w mid base nm).finalCtx = some cF →
      cF.destinationSite = some dest →
      ∃ pre, (Clone.cloneFromBackup env w mid base nm).world.effects
        = pre ++ Clone.deleteFailTail dest.id base.id)
    ∧ (env.hubOk = false →
      (Clone.cloneFromBackup env w mid base nm).world
        = { w with
            slot := none
            effects := w.effects ++
              [Eff.bkStarted, Eff.logState "gettingBackupCredentials"]
              ++ Clone.baseFailTail base.id }) := by
  constructor
  · intro cF dest hfail hctx hdest
    cases hhub : env.hubOk with
    | false =>
        rw [Clone.clone_run_hubFail env w mid base nm h hhub] at hctx
        simp only [Option.some.injEq] at hctx
        subst hctx
        simp at hdest
    | true =>
    cases hdup : checkForDuplicateSiteName nm (env.formatSiteNicename nm) w.sites with
    | true =>
        rw [Clone.clone_run_dupName env w mid base nm h hhub hdup] at hctx
        simp only [Option.some.injEq] at hctx
        subst hctx
        simp at hdest
    | false =>
    cases htmp : env.tmpOk with
    | false =>
        rw [Clone.clone_run_tmpFail env w mid base nm h hhub hdup htmp] at hctx ⊢
        simp only [Option.some.injEq] at hctx
        subst hctx
        simp only [Option.some.injEq] at hdest
        subst hdest
        exact ⟨_, rfl⟩
    | true =>
    cases hrestic : env.resticOk with
    | false =>
        rw [Clone.clone_run_resticFail env w mid base nm h hhub hdup htmp hrestic]
          at hctx ⊢
        simp only [Option.some.injEq] at hctx
        subst hctx
        simp only [Option.some.injEq] at hdest
        subst hdest
        exact ⟨_, rfl⟩
    | true =>
    cases hfs : env.fsOk with
    | false =>
        rw [Clone.clone_run_fsFail env w mid base nm h hhub hdup htmp hrestic hfs]
          at hctx ⊢
        simp only [Option.some.injEq] at hctx
        subst hctx
        simp only [Option.some.injEq] at hdest
        subst hdest
        exact ⟨_, rfl⟩
    | true =>
    cases hprov : env.provisionOk with
    | false =>
        rw [Clone.clone_run_provisionFail env w mid base nm h hhub hdup htmp hrestic hfs
          hprov] at hctx ⊢
        simp only [Option.some.injEq] at hctx
        subst hctx
        simp only [Option.some.injEq] at hdest
        subst hdest
        exact ⟨_, rfl⟩
    | true =>
    cases hdbe : (importDatabase env.dumpInSnapshot env.dumpRows env.dbFails
      w.db).error with
    | some e =>
        rw [Clone.clone_run_dbFail env w mid base nm e h hhub hdup htmp hrestic hfs hprov
          hdbe] at hctx ⊢
        simp only [Option.some.injEq] at hctx
        subst hctx
        simp only [Option.some.injEq] at hdest
        subst hdest
        exact ⟨_, rfl⟩
    | none =>
    cases hsr : env.searchReplaceOk with
    | false =>
        rw [Clone.clone_run_srFail env w mid base nm h hhub hdup htmp hrestic hfs hprov
          hdbe hsr] at hctx ⊢
        simp only [Option.some.injEq] at hctx
        subst hctx
        simp only [Option.some.injEq] at hdest
        subst hdest
        exact ⟨_, rfl⟩
    | true =>
        rw [Clone.clone_run_success env w mid base nm h hhub hdup htmp hrestic hfs hprov
          hdbe hsr] at hfail
        simp at hfail
  · intro hhub
    rw [Clone.clone_run_hubFail env w mid base nm h hhub]

/-- C3 amended witness: a clone run failing at provisioning dispatches
`deleteSite` with `trashFiles` for the destination site before the
promise settles. -/
theorem c3_rollback_completeness_amended_witness :
    ∃ pre,
      (Clone.cloneFromBackup { envAllOk with provisionOk := false } w0 7 site0
        "New Site").world.effects
        = pre ++ Clone.deleteFailTail "fresh1" site0.id := by
  exact (c3_rollback_completeness_amended { envAllOk with provisionOk := false }
      w0 7 site0 "New Site" rfl).1
    { baseSite := site0, newSiteName := "New Site",
      destinationSite := some (Clone.destSiteOf
        { envAllOk with provisionOk := false } "New Site"),
      hasCredentials := true, tmpDirAssigned := true,
      error := some "ProvisioningError" }
    (Clone.destSiteOf { envAllOk with provisionOk := false } "New Site")
    (by decide) (by decide) rfl

/-- C4: Sequential determinism — the transition tables of both machines
follow exactly the documented orders (each invoking state's `onDone`
targets the next state in the fixed sequence, its `onError` targets
`failed`, and the final states invoke nothing), and every admitted run
visits, in order, a prefix of the documented sequence followed by
`failed`, or the whole documented sequence ending in `finished`:
no state is skipped, reordered, or entered before its predecessor's
service resolves. -/
theorem c4_sequential_determinism
    (env : Env) (w : World) (mid : Nat) (site base : SiteArg) (nm : String)
    (h : w.slot = none) :
    List.Chain' (fun a b => Restore.onDoneTarget a = some b) restoreOrder
    ∧ List.Chain' (fun a b => Clone.onDoneTarget a = some b) cloneOrder
    ∧ (∀ s : Restore.St, s ≠ Restore.St.finished → s ≠ Restore.St.failed →
        Restore.onErrorTarget s = some Restore.St.failed)
    ∧ (∀ s : Clone.St, s ≠ Clone.St.finished → s ≠ Clone.St.failed →
        Clone.onErrorTarget s = some Clone.St.failed)
    ∧ Restore.onDoneTarget Restore.St.finished = none
    ∧ Restore.onDoneTarget Restore.St.failed = none
    ∧ Clone.onDoneTarget Clone.St.finished = none
    ∧ Clone.onDoneTarget Clone.St.failed = none
    ∧ ((∃ k, 1 ≤ k ∧ k ≤ 5
        ∧ (Restore.restoreFromBackup env w mid site).visited
            = restoreOrder.take k ++ [Restore.St.failed])
      ∨ (Restore.restoreFromBackup env w mid site).visited = restoreOrder)
    ∧ ((∃ k, 1 ≤ k ∧ k ≤ 8
        ∧ (Clone.cloneFromBackup env w mid base nm).visited
            = cloneOrder.take k ++ [Clone.St.failed])
      ∨ (Clone.cloneFromBackup env w mid base nm).visited = cloneOrder) := by
  refine ⟨by repeat constructor, by repeat constructor, ?_, ?_, rfl, rfl, rfl, rfl,
    ?_, ?_⟩
  · intro s h1 h2
    cases s <;> first | rfl | exact absurd rfl h1 | exact absurd rfl h2
  · intro s h1 h2
    cases s <;> first | rfl | exact absurd rfl h1 | exact absurd rfl h2
  · cases hhub : env.hubOk with
    | false =>
        exact Or.inl ⟨1, by norm_num, by norm_num,
          by rw [Restore.run_hubFail env w mid site h hhub]; rfl⟩
    | true =>
    cases htmp : env.tmpOk with
    | false =>
        exact Or.inl ⟨2, by norm_num, by norm_num,
          by rw [Restore.run_tmpFail env w mid site h hhub htmp]; rfl⟩
    | true =>
    cases hrestic : env.resticOk with
    | false =>
        exact Or.inl ⟨3, by norm_num, by norm_num,
          by rw [Restore.run_resticFail env w mid site h hhub htmp hrestic]; rfl⟩
    | true =>
    cases hfs : env.fsOk with
    | false =>
        exact Or.inl ⟨4, by norm_num, by norm_num,
          by rw [Restore.run_fsFail env w mid site h hhub htmp hrestic hfs]; rfl⟩
    | true =>
    cases hdbe : (importDatabase env.dumpInSnapshot env.dumpRows env.dbFails
      w.db).error with
    | some e =>
        exact Or.inl ⟨5, by norm_num, by norm_num,
          by rw [Restore.run_dbFail env w mid site e h hhub htmp hrestic hfs hdbe];
             rfl⟩
    | none =>
        exact Or.inr
          (by rw [Restore.run_success env w mid site h hhub htmp hrestic hfs hdbe];
              rfl)
  · cases hhub : env.hubOk with
    | false =>
        exact Or.inl ⟨1, by norm_num, by norm_num,
          by rw [Clone.clone_run_hubFail env w mid base nm h hhub]; rfl⟩
    | true =>
    cases hdup : checkForDuplicateSiteName nm (env.formatSiteNicename nm) w.sites with
    | true =>
        exact Or.inl ⟨2, by norm_num, by norm_num,
          by rw [Clone.clone_run_dupName env w mid base nm h hhub hdup]; rfl⟩
    | false =>
    cases htmp : env.tmpOk with
    | false =>
        exact Or.inl ⟨3, by norm_num, by norm_num,
          by rw [Clone.clone_run_tmpFail env w mid base nm h hhub hdup htmp]; rfl⟩
    | true =>
    cases hrestic : env.resticOk with
    | false =>
        exact Or.inl ⟨4, by norm_num, by norm_num,
          by rw [Clone.clone_run_resticFail env w mid base nm h hhub hdup htmp hrestic];
             rfl⟩
    | true =>
    cases hfs : env.fsOk with
    | false =>
        exact Or.inl ⟨5, by norm_num, by norm_num,
          by rw [Clone.clone_run_fsFail env w mid base nm h hhub hdup htmp hrestic hfs];
             rfl⟩
    | true =>
    cases hprov : env.provisionOk with
    | false =>
        exact Or.inl ⟨6, by norm_num, by norm_num,
          by rw [Clone.clone_run_provisionFail env w mid base nm h hhub hdup htmp hrestic
            hfs hprov]; rfl⟩
    | true =>
    cases hdbe : (importDatabase env.dumpInSnapshot env.dumpRows env.dbFails
      w.db).error with
    | some e =>
        exact Or.inl ⟨7, by norm_num, by norm_num,
          by rw [Clone.clone_run_dbFail env w mid base nm e h hhub hdup htmp hrestic hfs
            hprov hdbe]; rfl⟩
    | none =>
    cases hsr : env.searchReplaceOk with
    | false =>
        exact Or.inl ⟨8, by norm_num, by norm_num,
          by rw [Clone.clone_run_srFail env w mid base nm h hhub hdup htmp hrestic hfs
            hprov hdbe hsr]; rfl⟩
    | true =>
        exact Or.inr
          (by rw [Clone.clone_run_success env w mid base nm h hhub hdup htmp hrestic hfs
              hprov hdbe hsr]; rfl)

/-- C4 witness: the conclusion instantiated at a concrete admitted
run of each variant. -/
theorem c4_sequential_determinism_witness :
    ((∃ k, 1 ≤ k ∧ k ≤ 5
        ∧ (Restore.restoreFromBackup envAllOk w0 7 site0).visited
            = restoreOrder.take k ++ [Restore.St.failed])
      ∨ (Restore.restoreFromBackup envAllOk w0 7 site0).visited = restoreOrder)
    ∧ ((∃ k, 1 ≤ k ∧ k ≤ 8
        ∧ (Clone.cloneFromBackup envAllOk w0 7 site0 "New Site").visited
            = cloneOrder.take k ++ [Clone.St.failed])
      ∨ (Clone.cloneFromBackup envAllOk w0 7 site0 "New Site").visited
          = cloneOrder) := by
  have h := c4_sequential_determinism envAllOk w0 7 site0 site0 "New Site" rfl
  exact ⟨h.2.2.2.2.2.2.2.2.1, h.2.2.2.2.2.2.2.2.2⟩

/-- C6: Failure cleanup asymmetry — in both variants, a run that
reaches `finished` leaves no staging directory on disk (the `finished`
entry action empties and removes it), while a run that reaches `failed`
at any failure point after the staging directory was created (its
context carries the tmp-dir handle) leaves the staging directory on
disk: the `failed` state performs no staging-directory removal. -/
theorem c6_failure_cleanup_asymmetry
    (env : Env) (w : World) (mid : Nat) (site base : SiteArg) (nm : String)
    (h : w.slot = none) :
    ((Restore.restoreFromBackup env w mid site).finalState
        = some Restore.St.finished →
      (Restore.restoreFromBackup env w mid site).world.tmpDirExists = false)
    ∧ (∀ cF,
      (Restore.restoreFromBackup env w mid site).finalState = some Restore.St.failed →
      (Restore.restoreFromBackup env w mid site).finalCtx = some cF →
      cF.tmpDirAssigned = true →
      (Restore.restoreFromBackup env w mid site).world.tmpDirExists = true)
    ∧ ((Clone.cloneFromBackup env w mid base nm).finalState
        = some Clone.St.finished →
      (Clone.cloneFromBackup env w mid base nm).world.tmpDirExists = false)
    ∧ (∀ cF,
      (Clone.cloneFromBackup env w mid base nm).finalState = some Clone.St.failed →
      (Clone.cloneFromBackup env w mid base nm).finalCtx = some cF →
      cF.tmpDirAssigned = true →
      (Clone.cloneFromBackup env w mid base nm).world.tmpDirExists = true) := by
  refine ⟨?_, ?_, ?_, ?_⟩
  · intro hfin
    cases hhub : env.hubOk with
    | false =>
        rw [Restore.run_hubFail env w mid site h hhub] at hfin
        simp at hfin
    | true =>
    cases htmp : env.tmpOk with
    | false =>
        rw [Restore.run_tmpFail env w mid site h hhub htmp] at hfin
        simp at hfin
    | true =>
    cases hrestic : env.resticOk with
    | false =>
        rw [Restore.run_resticFail env w mid site h hhub htmp hrestic] at hfin
        simp at hfin
    | true =>
    cases hfs : env.fsOk with
    | false =>
        rw [Restore.run_fsFail env w mid site h hhub htmp hrestic hfs] at hfin
        simp at hfin
    | true =>
    cases hdbe : (importDatabase env.dumpInSnapshot env.dumpRows env.dbFails
      w.db).error with
    | some e =>
        rw [Restore.run_dbFail env w mid site e h hhub htmp hrestic hfs hdbe] at hfin
        simp at hfin
    | none =>
        rw [Restore.run_success env w mid site h hhub htmp hrestic hfs hdbe]
  · intro cF hfail hctx hass
    cases hhub : env.hubOk with
    | false =>
        rw [Restore.run_hubFail env w mid site h hhub] at hctx
        simp only [Option.some.injEq] at hctx
        subst hctx
        simp at hass
    | true =>
    cases htmp : env.tmpOk with
    | false =>
        rw [Restore.run_tmpFail env w mid site h hhub htmp] at hctx
        simp only [Option.some.injEq] at hctx
        subst hctx
        simp at hass
    | true =>
    cases hrestic : env.resticOk with
    | false =>
        rw [Restore.run_resticFail env w mid site h hhub htmp hrestic]
    | true =>
    cases hfs : env.fsOk with
    | false =>
        rw [Restore.run_fsFail env w mid site h hhub htmp hrestic hfs]
    | true =>
    cases hdbe : (importDatabase env.dumpInSnapshot env.dumpRows env.dbFails
      w.db).error with
    | some e =>
        rw [Restore.run_dbFail env w mid site e h hhub htmp hrestic hfs hdbe]
    | none =>
        rw [Restore.run_success env w mid site h hhub htmp hrestic hfs hdbe] at hfail
        simp at hfail
  · intro hfin
    cases hhub : env.hubOk with
    | false =>
        rw [Clone.clone_run_hubFail env w mid base nm h hhub] at hfin
        simp at hfin
    | true =>
    cases hdup : checkForDuplicateSiteName nm (env.formatSiteNicename nm) w.sites with
    | true =>
        rw [Clone.clone_run_dupName env w mid base nm h hhub hdup] at hfin
        simp at hfin
    | false =>
    cases htmp : env.tmpOk with
    | false =>
        rw [Clone.clone_run_tmpFail env w mid base nm h hhub hdup htmp] at hfin
        simp at hfin
    | true =>
    cases hrestic : env.resticOk with
    | false =>
        rw [Clone.clone_run_resticFail env w mid base nm h hhub hdup htmp hrestic] at hfin
        simp at hfin
    | true =>
    cases hfs : env.fsOk with
    | false =>
        rw [Clone.clone_run_fsFail env w mid base nm h hhub hdup htmp hrestic hfs] at hfin
        simp at hfin
    | true =>
    cases hprov : env.provisionOk with
    | false =>
        rw [Clone.clone_run_provisionFail env w mid base nm h hhub hdup htmp hrestic hfs
          hprov] at hfin
        simp at hfin
    | true =>
    cases hdbe : (importDatabase env.dumpInSnapshot env.dumpRows env.dbFails
      w.db).error with
    | some e =>
        rw [Clone.clone_run_dbFail env w mid base nm e h hhub hdup htmp hrestic hfs hprov
          hdbe] at hfin
        simp at hfin
    | none =>
    cases hsr : env.searchReplaceOk with
    | false =>
        rw [Clone.clone_run_srFail env w mid base nm h hhub hdup htmp hrestic hfs hprov
          hdbe hsr] at hfin
        simp at hfin
    | true =>
        rw [Clone.clone_run_success env w mid base nm h hhub hdup htmp hrestic hfs hprov
          hdbe hsr]
  · intro cF hfail hctx hass
    cases hhub : env.hubOk with
    | false =>
        rw [Clone.clone_run_hubFail env w mid base nm h hhub] at hctx
        simp only [Option.some.injEq] at hctx
        subst hctx
        simp at hass
    | true =>
    cases hdup : checkForDuplicateSiteName nm (env.formatSiteNicename nm) w.sites with
    | true =>
        rw [Clone.clone_run_dupName env w mid base nm h hhub hdup] at hctx
        simp only [Option.some.injEq] at hctx
        subst hctx
        simp at hass
    | false =>
    cases htmp : env.tmpOk with
    | false =>
        rw [Clone.clone_run_tmpFail env w mid base nm h hhub hdup htmp] at hctx
        simp only [Option.some.injEq] at hctx
        subst hctx
        simp at hass
    | true =>
    cases hrestic : env.resticOk with
    | false =>
        rw [Clone.clone_run_resticFail env w mid base nm h hhub hdup htmp hrestic]
    | true =>
    cases hfs : env.fsOk with
    | false =>
        rw [Clone.clone_run_fsFail env w mid base nm h hhub hdup htmp hrestic hfs]
    | true =>
    cases hprov : env.provisionOk with
    | false =>
        rw [Clone.clone_run_provisionFail env w mid base nm h hhub hdup htmp hrestic hfs
          hprov]
    | true =>
    cases hdbe : (importDatabase env.dumpInSnapshot env.dumpRows env.dbFails
      w.db).error with
    | some e =>
        rw [Clone.clone_run_dbFail env w mid base nm e h hhub hdup htmp hrestic hfs hprov
          hdbe]
    | none =>
    cases hsr : env.searchReplaceOk with
    | false =>
        rw [Clone.clone_run_srFail env w mid base nm h hhub hdup htmp hrestic hfs hprov
          hdbe hsr]
    | true =>
        rw [Clone.clone_run_success env w mid base nm h hhub hdup htmp hrestic hfs hprov
          hdbe hsr] at hfail
        simp at hfail

/-- C6 witness: a successful restore leaves no staging directory; a
restore failing at the snapshot transfer leaves it on disk. -/
theorem c6_failure_cleanup_asymmetry_witness :
    (Restore.restoreFromBackup envAllOk w0 7 site0).world.tmpDirExists = false
    ∧ (Restore.restoreFromBackup { envAllOk with resticOk := false }
        w0 7 site0).world.tmpDirExists = true := by
  refine ⟨?_, ?_⟩
  · exact (c6_failure_cleanup_asymmetry envAllOk w0 7 site0 site0 "x" rfl).1
      (by decide)
  · exact (c6_failure_cleanup_asymmetry { envAllOk with resticOk := false }
        w0 7 site0 site0 "x" rfl).2.1
      { site := site0, initialSiteStatus := "running", hasCredentials := true,
        tmpDirAssigned := true, error := some "TransferError" }
      (by decide) (by decide) rfl

/-- C7: Missing-dump tolerance — when the staged tree contains no file
at the conventional `app/sql/<dump file name>` path, `importDatabase`
logs the warning and returns successfully without issuing any SQL
command, and an otherwise-successful run of either variant reaches
`finished` with the site's database untouched: the trace contains the
warning and not a single SQL effect. -/
theorem c7_missing_dump_tolerance
    (dumpRows : List String) (dbFails : DbOp → Bool) (st : DbState)
    (env : Env) (w : World) (mid : Nat) (site base : SiteArg) (nm : String)
    (h : w.slot = none) (hnd : env.dumpInSnapshot = false)
    (hhub : env.hubOk = true) (htmp : env.tmpOk = true)
    (hrestic : env.resticOk = true) (hfs : env.fsOk = true)
    (hprov : env.provisionOk = true) (hsr : env.searchReplaceOk = true)
    (hdup : checkForDuplicateSiteName nm (env.formatSiteNicename nm) w.sites
      = false) :
    importDatabase false dumpRows dbFails st
      = { db := st, ops := [], error := none, warnedNoFile := true }
    ∧ (Restore.restoreFromBackup env w mid site).finalState
        = some Restore.St.finished
    ∧ (Restore.restoreFromBackup env w mid site).world.db = w.db
    ∧ (Restore.restoreFromBackup env w mid site).world.effects
        = w.effects ++
          [Eff.bkStarted, Eff.logState "gettingBackupCredentials",
           Eff.bkStarted, Eff.logState "creatingTmpDir",
           Eff.bkStarted, Eff.logState "restoringBackup",
           Eff.bkStarted, Eff.logState "movingSiteFromTmpDir"]
          ++ (getFilteredSiteFiles w.siteEntries).map Eff.removePath
          ++ [Eff.copyTmpToPath site.path,
              Eff.bkStarted, Eff.logState "restoringDatabase",
              Eff.warnNoSqlFile,
              Eff.bkStarted, Eff.logState "finished",
              Eff.bkCompleted, Eff.promiseResolved]
    ∧ (Clone.cloneFromBackup env w mid base nm).finalState
        = some Clone.St.finished
    ∧ (Clone.cloneFromBackup env w mid base nm).world.db = w.db
    ∧ (Clone.cloneFromBackup env w mid base nm).world.effects
        = w.effects ++
          [Eff.bkStarted, Eff.logState "gettingBackupCredentials",
           Eff.bkStarted, Eff.logState "setupDestinationSite"]
          ++ Clone.setupEffects env nm
          ++ [Eff.bkStarted, Eff.logState "creatingTmpDir",
              Eff.bkStarted, Eff.logState "cloningBackup",
              Eff.bkStarted, Eff.logState "movingSiteFromTmpDir",
              Eff.copyTmpToPath (env.formatSiteNicename nm),
              Eff.bkStarted, Eff.logState "provisioningSite",
              Eff.bkStarted, Eff.logState "restoringDatabase",
              Eff.warnNoSqlFile,
              Eff.bkStarted, Eff.logState "searchReplaceDomain",
              Eff.updateSiteStatus env.freshSiteId "provisioning",
              Eff.updateSiteMessage env.freshSiteId "Changing site domain",
              Eff.restartSite env.freshSiteId,
              Eff.bkStarted, Eff.logState "finished",
              Eff.bkCompleted, Eff.promiseResolved] := by
  have hdbe : (importDatabase env.dumpInSnapshot env.dumpRows env.dbFails
      w.db).error = none := by
    rw [hnd]
    rfl
  refine ⟨rfl, ?_, ?_, ?_, ?_, ?_, ?_⟩
  · rw [Restore.run_success env w mid site h hhub htmp hrestic hfs hdbe]
  · rw [Restore.run_success env w mid site h hhub htmp hrestic hfs hdbe]
    simp [hnd, importDatabase]
  · rw [Restore.run_success env w mid site h hhub htmp hrestic hfs hdbe]
    simp [hnd, importDatabase]
  · rw [Clone.clone_run_success env w mid base nm h hhub hdup htmp hrestic hfs hprov
      hdbe hsr]
  · rw [Clone.clone_run_success env w mid base nm h hhub hdup htmp hrestic hfs hprov
      hdbe hsr]
    simp [hnd, importDatabase]
  · rw [Clone.clone_run_success env w mid base nm h hhub hdup htmp hrestic hfs hprov
      hdbe hsr]
    simp [hnd, importDatabase]

/-- C7 witness: concrete dump-less runs of both variants succeed with
the database untouched. -/
theorem c7_missing_dump_tolerance_witness :
    (Restore.restoreFromBackup { envAllOk with dumpInSnapshot := false }
        w0 7 site0).finalState = some Restore.St.finished
    ∧ (Restore.restoreFromBackup { envAllOk with dumpInSnapshot := false }
        w0 7 site0).world.db = w0.db
    ∧ (Clone.cloneFromBackup { envAllOk with dumpInSnapshot := false }
        w0 7 site0 "New Site").finalState = some Clone.St.finished
    ∧ (Clone.cloneFromBackup { envAllOk with dumpInSnapshot := false }
        w0 7 site0 "New Site").world.db = w0.db := by
  have hc := c7_missing_dump_tolerance [] (fun _ => false) ⟨[], ""⟩
    { envAllOk with dumpInSnapshot := false } w0 7 site0 site0 "New Site"
    rfl rfl rfl rfl rfl rfl rfl rfl (by decide)
  exact ⟨hc.2.1, hc.2.2.1, hc.2.2.2.2.1, hc.2.2.2.2.2.1⟩

/-- C8 counterexample: the claim excludes dotfiles from the deletion
set, but the code's second glob pattern explicitly adds them: for the
site tree `[app, conf, .htaccess]`, the run's Filesystem Apply step
issues a removal of `.htaccess`, which the spec's exclusion rule (with
nothing explicitly listed) excludes. -/
theorem c8_counterexample_dotfiles_deleted :
    Eff.removePath ".htaccess"
        ∈ (Restore.restoreFromBackup envAllOk w0 7 site0).world.effects
    ∧ ".htaccess" ∈ getFilteredSiteFiles w0.siteEntries
    ∧ ".htaccess" ∉ specFilteredSiteFiles w0.siteEntries [] := by
  decide

/-- C8 amended: the deletion set computed by `getFilteredSiteFiles` is
the full top-level site tree minus the `conf` configuration directory —
dotfiles are included (added by the second glob pattern), not excluded —
and on a run whose Filesystem Apply step succeeds, every removal of
that set is issued (and awaited) before the single copy of the staging
directory onto the site path. -/
theorem c8_filesystem_apply_amended
    (entries : List String) (env : Env) (w : World) (mid : Nat) (site : SiteArg)
    (h : w.slot = none) (hhub : env.hubOk = true) (htmp : env.tmpOk = true)
    (hrestic : env.resticOk = true) (hfs : env.fsOk = true) :
    (∀ e, e ∈ getFilteredSiteFiles entries
      ↔ (e ∈ entries
          ∧ (startsWithDot e = true ∨ excludePatterns.contains e = false)))
    ∧ ∃ pre post,
      (Restore.restoreFromBackup env w mid site).world.effects
        = pre ++ (getFilteredSiteFiles w.siteEntries).map Eff.removePath
          ++ [Eff.copyTmpToPath site.path] ++ post := by
  constructor
  · intro e
    simp only [getFilteredSiteFiles, List.mem_append, List.mem_filter,
      Bool.and_eq_true, Bool.not_eq_true']
    constructor
    · rintro (⟨he, h1, h2⟩ | ⟨he, h1⟩)
      · exact ⟨he, Or.inr h2⟩
      · exact ⟨he, Or.inl h1⟩
    · rintro ⟨he, h1 | h2⟩
      · exact Or.inr ⟨he, h1⟩
      · cases hd : startsWithDot e with
        | false => exact Or.inl ⟨he, rfl, h2⟩
        | true => exact Or.inr ⟨he, rfl⟩
  · cases hdbe : (importDatabase env.dumpInSnapshot env.dumpRows env.dbFails
      w.db).error with
    | some e =>
        refine ⟨w.effects ++
            [Eff.bkStarted, Eff.logState "gettingBackupCredentials",
             Eff.bkStarted, Eff.logState "creatingTmpDir",
             Eff.bkStarted, Eff.logState "restoringBackup",
             Eff.bkStarted, Eff.logState "movingSiteFromTmpDir"],
          [Eff.bkStarted, Eff.logState "restoringDatabase"]
            ++ (importDatabase env.dumpInSnapshot env.dumpRows env.dbFails
                w.db).ops.map Eff.sql
            ++ Restore.failTail site.id site.status, ?_⟩
        rw [Restore.run_dbFail env w mid site e h hhub htmp hrestic hfs hdbe]
        simp
    | none =>
        refine ⟨w.effects ++
            [Eff.bkStarted, Eff.logState "gettingBackupCredentials",
             Eff.bkStarted, Eff.logState "creatingTmpDir",
             Eff.bkStarted, Eff.logState "restoringBackup",
             Eff.bkStarted, Eff.logState "movingSiteFromTmpDir"],
          [Eff.bkStarted, Eff.logState "restoringDatabase"]
            ++ (if (importDatabase env.dumpInSnapshot env.dumpRows env.dbFails
                  w.db).warnedNoFile
                then [Eff.warnNoSqlFile]
                else (importDatabase env.dumpInSnapshot env.dumpRows env.dbFails
                  w.db).ops.map Eff.sql)
            ++ [Eff.bkStarted, Eff.logState "finished",
                Eff.bkCompleted, Eff.promiseResolved], ?_⟩
        rw [Restore.run_success env w mid site h hhub htmp hrestic hfs hdbe]
        simp

/-- C8 amended witness: the concrete run removes exactly the non-conf
entries (dotfile included) before the copy. -/
theorem c8_filesystem_apply_amended_witness :
    (".htaccess" ∈ getFilteredSiteFiles ["app", "conf", ".htaccess"]
      ↔ (".htaccess" ∈ ["app", "conf", ".htaccess"]
          ∧ (startsWithDot ".htaccess" = true
              ∨ excludePatterns.contains ".htaccess" = false)))
    ∧ ∃ pre post,
      (Restore.restoreFromBackup envAllOk w0 7 site0).world.effects
        = pre ++ (getFilteredSiteFiles w0.siteEntries).map Eff.removePath
          ++ [Eff.copyTmpToPath site0.path] ++ post := by
  have hc := c8_filesystem_apply_amended ["app", "conf", ".htaccess"]
    envAllOk w0 7 site0 rfl rfl rfl rfl rfl
  exact ⟨hc.1 ".htaccess", hc.2⟩

/-- C9: Restore-in-place failure recovery — every failing restore run
captured `initialSiteStatus` from the site's pre-run status, and its
trace ends with the `onErrorFactory` recovery block: the IPC status
update back to `initialSiteStatus`, the error banner bound to the site,
and the restart of the site's runtime services, all issued before the
promise settles (the settlement effect closes the trace). -/
theorem c9_restore_failure_recovery
    (env : Env) (w : World) (mid : Nat) (site : SiteArg)
    (h : w.slot = none) :
    ∀ cF,
      (Restore.restoreFromBackup env w mid site).finalState
        = some Restore.St.failed →
      (Restore.restoreFromBackup env w mid site).finalCtx = some cF →
      cF.initialSiteStatus = site.status
      ∧ ∃ pre, (Restore.restoreFromBackup env w mid site).world.effects
          = pre ++ Restore.failTail site.id site.status := by
  intro cF hfail hctx
  cases hhub : env.hubOk with
  | false =>
      rw [Restore.run_hubFail env w mid site h hhub] at hctx ⊢
      simp only [Option.some.injEq] at hctx
      subst hctx
      exact ⟨rfl, _, rfl⟩
  | true =>
  cases htmp : env.tmpOk with
  | false =>
      rw [Restore.run_tmpFail env w mid site h hhub htmp] at hctx ⊢
      simp only [Option.some.injEq] at hctx
      subst hctx
      exact ⟨rfl, _, rfl⟩
  | true =>
  cases hrestic : env.resticOk with
  | false =>
      rw [Restore.run_resticFail env w mid site h hhub htmp hrestic] at hctx ⊢
      simp only [Option.some.injEq] at hctx
      subst hctx
      exact ⟨rfl, _, rfl⟩
  | true =>
  cases hfs : env.fsOk with
  | false =>
      rw [Restore.run_fsFail env w mid site h hhub htmp hrestic hfs] at hctx ⊢
      simp only [Option.some.injEq] at hctx
      subst hctx
      exact ⟨rfl, _, rfl⟩
  | true =>
  cases hdbe : (importDatabase env.dumpInSnapshot env.dumpRows env.dbFails
    w.db).error with
  | some e =>
      rw [Restore.run_dbFail env w mid site e h hhub htmp hrestic hfs hdbe] at hctx ⊢
      simp only [Option.some.injEq] at hctx
      subst hctx
      exact ⟨rfl, _, rfl⟩
  | none =>
      rw [Restore.run_success env w mid site h hhub htmp hrestic hfs hdbe] at hfail
      simp at hfail

/-- C9 witness: a restore failing at the Filesystem Apply step reverts
the status, shows the banner, and restarts the site before settling. -/
theorem c9_restore_failure_recovery_witness :
    ∃ pre, (Restore.restoreFromBackup { envAllOk with fsOk := false }
        w0 7 site0).world.effects
      = pre ++ Restore.failTail site0.id site0.status := by
  exact (c9_restore_failure_recovery { envAllOk with fsOk := false } w0 7 site0 rfl
    { site := site0, initialSiteStatus := "running", hasCredentials := true,
      tmpDirAssigned := true, error := some "FilesystemError" }
    (by decide) (by decide)).2

/-- C10: Database Apply is not atomic on error — with the dump present,
the attempted SQL operations always form a prefix of the fixed sequence
in which the combined DROP DATABASE / CREATE DATABASE query precedes
the dump import; if the import fails, the step raises its error with
the database already dropped and recreated empty and with the
permissive SQL mode still in effect; if the final SQL-mode restore
fails, the permissive mode likewise remains in effect and the prior
database contents have been replaced by the dump, not restored. -/
theorem c10_database_apply_not_atomic
    (dumpRows : List String) (dbFails : DbOp → Bool) (st : DbState) :
    (∃ k, (importDatabase true dumpRows dbFails st).ops
        = [DbOp.selectMode, DbOp.setPermissiveMode, DbOp.dropAndCreate,
           DbOp.importDumpFile, DbOp.restorePreviousMode].take k)
    ∧ ((importDatabase true dumpRows dbFails st).error = some DbOp.importDumpFile →
        (importDatabase true dumpRows dbFails st).db.rows = []
        ∧ (importDatabase true dumpRows dbFails st).db.sqlMode
            = "NO_AUTO_VALUE_ON_ZERO"
        ∧ (importDatabase true dumpRows dbFails st).ops
            = [DbOp.selectMode, DbOp.setPermissiveMode, DbOp.dropAndCreate,
               DbOp.importDumpFile])
    ∧ ((importDatabase true dumpRows dbFails st).error
          = some DbOp.restorePreviousMode →
        (importDatabase true dumpRows dbFails st).db.rows = dumpRows
        ∧ (importDatabase true dumpRows dbFails st).db.sqlMode
            = "NO_AUTO_VALUE_ON_ZERO") := by
  simp only [importDatabase]
  repeat' split
  all_goals
    first
    | exact ⟨⟨1, rfl⟩, by simp, by simp⟩
    | exact ⟨⟨2, rfl⟩, by simp, by simp⟩
    | exact ⟨⟨3, rfl⟩, by simp, by simp⟩
    | exact ⟨⟨4, rfl⟩, by simp, by simp⟩
    | exact ⟨⟨5, rfl⟩, by simp, by simp⟩
    | simp_all

/-- C10 witness: a run whose dump import fails leaves the database
dropped and recreated empty with the permissive mode in effect. -/
theorem c10_database_apply_not_atomic_witness :
    ((importDatabase true ["d1"] (fun op => op == DbOp.importDumpFile)
        ⟨["old"], "STRICT"⟩).error = some DbOp.importDumpFile)
    ∧ ((importDatabase true ["d1"] (fun op => op == DbOp.importDumpFile)
        ⟨["old"], "STRICT"⟩).db.rows = []
      ∧ (importDatabase true ["d1"] (fun op => op == DbOp.importDumpFile)
          ⟨["old"], "STRICT"⟩).db.sqlMode = "NO_AUTO_VALUE_ON_ZERO"
      ∧ (importDatabase true ["d1"] (fun op => op == DbOp.importDumpFile)
          ⟨["old"], "STRICT"⟩).ops
        = [DbOp.selectMode, DbOp.setPermissiveMode, DbOp.dropAndCreate,
           DbOp.importDumpFile]) :=
  ⟨by decide,
   (c10_database_apply_not_atomic ["d1"] (fun op => op == DbOp.importDumpFile)
      ⟨["old"], "STRICT"⟩).2.1 (by decide)⟩

end LocalBackups
